import Mathlib

/-!
# Verification of the zk-private-lending proof backend

A shallow embedding of the Halo2 circuits (`src/circuits/halo2/src`) and the
API proof routes (`src/api/src/routes/proof.rs`, `src/api/src/services/zk_prover.rs`)
of the zk-private-lending repository, together with proofs of the behavioural
claims about them.

The circuits operate over `pasta_curves::Fp`, the Pallas base field; we model it
as `ZMod P` for the concrete Pallas modulus `P`.  Every cell assigned by a
circuit's `synthesize` is a polynomial in the witness values, so for a fixed
witness the generated assignment is unique; a circuit's constraint system is
modelled as the predicate "all gate constraints, instance equalities and lookup
constraints hold on the assignment generated by `synthesize`", which is exactly
what `MockProver::verify` checks.
-/

/-- The Pallas base field modulus
(`0x40000000000000000000000000000000224698fc094cf91b992d30ed00000001`),
the field of `pasta_curves::Fp` used by all Halo2 circuits in the repository. -/
def P : Nat := 28948022309329048855892746252171976963363056481941560715954676764349967630337

instance : NeZero P := ⟨by decide⟩

/-- The circuit scalar field `pasta_curves::Fp`. -/
abbrev F : Type := ZMod P

/-- `CollateralCircuit::compute_commitment` / `LTVCircuit::compute_commitment`
(collateral.rs:109-112, ltv.rs:116-118): `commitment = value * salt + value`. -/
def compute_commitment (value salt : F) : F := value * salt + value

/-- `LiquidationCircuit::compute_position_hash` (liquidation.rs:130-132):
`position_hash = collateral * salt + debt * salt + collateral + debt`. -/
def compute_position_hash (collateral debt salt : F) : F :=
  collateral * salt + debt * salt + collateral + debt

/-- The lookup table loaded by `RangeCheckChip::load_table`
(range_check.rs:87-104): the field embeddings of every integer in
`[0, 2^BITS)`, in order. -/
def rangeTable (BITS : Nat) : List F := (List.range (2 ^ BITS)).map (fun i => (Nat.cast i : F))

/-- The constraint placed by `RangeCheckChip::check` (range_check.rs:107-127):
the looked-up cell value must appear in the range table. -/
def rangeCheckSat (BITS : Nat) (v : F) : Prop := v ∈ rangeTable BITS

instance (BITS : Nat) (v : F) : Decidable (rangeCheckSat BITS v) :=
  inferInstanceAs (Decidable (v ∈ rangeTable BITS))

/-- The constraints imposed by `ComparisonChip::gte` (comparison.rs:122-158):
the gate `diff = a - b` (field subtraction) plus a range check of `diff`
into `[0, 2^BITS)`.  `diff` is determined by the gate, so satisfiability
reduces to the range check of `a - b`. -/
def gteSat (BITS : Nat) (a b : F) : Prop := rangeCheckSat BITS (a - b)

instance (BITS : Nat) (a b : F) : Decidable (gteSat BITS a b) :=
  inferInstanceAs (Decidable (rangeCheckSat BITS (a - b)))

/-- The constraints imposed by `ComparisonChip::gt` (comparison.rs:160-177):
it assigns `b + 1` and delegates to `gte a (b + 1)`. -/
def gtSat (BITS : Nat) (a b : F) : Prop := gteSat BITS a (b + 1)

instance (BITS : Nat) (a b : F) : Decidable (gtSat BITS a b) :=
  inferInstanceAs (Decidable (gteSat BITS a (b + 1)))

/-- `RANGE_BITS = 16` (collateral.rs:43, ltv.rs:45, liquidation.rs:47). -/
def RANGE_BITS : Nat := 16

/-- `PRECISION = 100` (liquidation.rs:48) and `LTV_PRECISION = 100` (ltv.rs:46). -/
def PRECISION : Nat := 100

/-- The cells assigned by `CollateralCircuit::synthesize` (collateral.rs:176-240)
on row 0 of its single region. -/
structure CollateralAssign where
  collateral : F
  salt : F
  threshold : F
  commitment_computed : F

/-- The assignment `CollateralCircuit::synthesize` generates from the witness:
`commitment_computed` is recomputed from the private witnesses
(collateral.rs:211-220); `self.commitment` is never assigned to a cell. -/
def collateralSynthesize (collateral salt threshold : F) : CollateralAssign :=
  { collateral := collateral
    salt := salt
    threshold := threshold
    commitment_computed := compute_commitment collateral salt }

/-- The constraint system of `CollateralCircuit` on an assignment and a public
instance column: the commitment gate (collateral.rs:144-152), the two
`constrain_instance` equalities (collateral.rs:227-230), and the comparison
`gte(collateral, threshold)` (collateral.rs:233-237). -/
def collateralConstraints (w : CollateralAssign) (instCol : List F) : Prop :=
  w.commitment_computed = w.collateral * w.salt + w.collateral ∧
  instCol[0]? = some w.threshold ∧
  instCol[1]? = some w.commitment_computed ∧
  gteSat RANGE_BITS w.collateral w.threshold

/-- Satisfiability of the Collateral circuit for a given witness and instance
column, i.e. what `MockProver::verify` checks on the synthesized assignment. -/
def collateralSat (collateral salt threshold : F) (instCol : List F) : Prop :=
  collateralConstraints (collateralSynthesize collateral salt threshold) instCol

instance (c s t : F) (i : List F) : Decidable (collateralSat c s t i) :=
  inferInstanceAs (Decidable (_ ∧ _ ∧ _ ∧ _))

/-- The cells assigned by `LTVCircuit::synthesize` (ltv.rs:206-289) on row 0 of
its main region. -/
structure LTVAssign where
  debt : F
  collateral : F
  salt_d : F
  salt_c : F
  debt_scaled : F
  collateral_scaled : F
  debt_commitment : F
  collateral_commitment : F

/-- The assignment `LTVCircuit::synthesize` generates from the witness
(ltv.rs:216-271).  Note `collateral_scaled` is assigned
`collateral * max_ltv` but no gate ever constrains it, and `max_ltv`
itself lives in no column. -/
def ltvSynthesize (debt collateral salt_d salt_c max_ltv : F) : LTVAssign :=
  { debt := debt
    collateral := collateral
    salt_d := salt_d
    salt_c := salt_c
    debt_scaled := debt * (PRECISION : Nat)
    collateral_scaled := collateral * max_ltv
    debt_commitment := compute_commitment debt salt_d
    collateral_commitment := compute_commitment collateral salt_c }

/-- The constraint system of `LTVCircuit`: the debt-scaling gate
(ltv.rs:154-161), the two commitment gates (ltv.rs:164-177), the two
`constrain_instance` equalities — only indices 1 and 2 (ltv.rs:277-278) —
and the comparison `gte(collateral_scaled, debt_scaled)` (ltv.rs:282-286). -/
def ltvConstraints (w : LTVAssign) (instCol : List F) : Prop :=
  w.debt_scaled = w.debt * (PRECISION : Nat) ∧
  w.debt_commitment = w.debt * w.salt_d + w.debt ∧
  w.collateral_commitment = w.collateral * w.salt_c + w.collateral ∧
  instCol[1]? = some w.debt_commitment ∧
  instCol[2]? = some w.collateral_commitment ∧
  gteSat RANGE_BITS w.collateral_scaled w.debt_scaled

/-- Satisfiability of the LTV circuit for a given witness and instance column. -/
def ltvSat (debt collateral salt_d salt_c max_ltv : F) (instCol : List F) : Prop :=
  ltvConstraints (ltvSynthesize debt collateral salt_d salt_c max_ltv) instCol

instance (d c sd sc ml : F) (i : List F) : Decidable (ltvSat d c sd sc ml i) :=
  inferInstanceAs (Decidable (_ ∧ _ ∧ _ ∧ _ ∧ _ ∧ _))

/-- The cells assigned by `LiquidationCircuit::synthesize`
(liquidation.rs:249-332) on row 0 of its main region. -/
structure LiquidationAssign where
  collateral : F
  debt : F
  salt : F
  price : F
  liquidation_threshold : F
  collateral_value : F
  debt_scaled : F
  position_hash : F

/-- The assignment `LiquidationCircuit::synthesize` generates from the witness
(liquidation.rs:262-315). -/
def liquidationSynthesize (collateral debt salt price liquidation_threshold : F) :
    LiquidationAssign :=
  { collateral := collateral
    debt := debt
    salt := salt
    price := price
    liquidation_threshold := liquidation_threshold
    collateral_value := collateral * price * liquidation_threshold
    debt_scaled := debt * (PRECISION : Nat)
    position_hash := compute_position_hash collateral debt salt }

/-- The constraint system of `LiquidationCircuit`: the computation gate
(liquidation.rs:189-207), the position-hash gate (liquidation.rs:210-219),
the single `constrain_instance` equality — index 2 only
(liquidation.rs:322) — and the comparison `gt(debt_scaled, collateral_value)`
(liquidation.rs:326-330). -/
def liquidationConstraints (w : LiquidationAssign) (instCol : List F) : Prop :=
  w.collateral_value = w.collateral * w.price * w.liquidation_threshold ∧
  w.debt_scaled = w.debt * (PRECISION : Nat) ∧
  w.position_hash = w.collateral * w.salt + w.debt * w.salt + w.collateral + w.debt ∧
  instCol[2]? = some w.position_hash ∧
  gtSat RANGE_BITS w.debt_scaled w.collateral_value

/-- Satisfiability of the Liquidation circuit for a given witness and instance
column. -/
def liquidationSat (collateral debt salt price liquidation_threshold : F)
    (instCol : List F) : Prop :=
  liquidationConstraints
    (liquidationSynthesize collateral debt salt price liquidation_threshold) instCol

instance (c d s p lt : F) (i : List F) : Decidable (liquidationSat c d s p lt i) :=
  inferInstanceAs (Decidable (_ ∧ _ ∧ _ ∧ _ ∧ _))

/-- Digit test used while modelling Rust's `str::parse::<u128>`. -/
def isAsciiDigit (c : Char) : Bool := 48 ≤ c.toNat && c.toNat ≤ 57

/-- Decimal value of a digit list (most significant first). -/
def digitsToNat (l : List Char) : Nat := l.foldl (fun acc c => acc * 10 + (c.toNat - 48)) 0

/-- `parse_u128` (proof.rs:221-224): Rust's `str::parse::<u128>`, which accepts
an optional leading `+`, then one or more ASCII digits, and rejects values
that do not fit in `u128`; any failure becomes a `ValidationError`
(modelled as `none` here). -/
def parse_u128 (s : String) : Option Nat :=
  let l := match s.data with
    | '+' :: rest => rest
    | other => other
  if l ≠ [] ∧ l.all isAsciiDigit ∧ digitsToNat l < 2 ^ 128 then some (digitsToNat l)
  else none

/-- `u128` multiplication as the handlers use it: unchecked `*`, which panics
on overflow under Rust's checked-arithmetic (debug) semantics.  `none`
models the panic. -/
def mul_u128 (a b : Nat) : Option Nat :=
  if a * b < 2 ^ 128 then some (a * b) else none

/-- The `ApiError` variants reachable from the proof handlers before the
proving service is invoked (error.rs of the api crate). -/
inductive ApiError where
  | ValidationError (msg : String)
  deriving DecidableEq

/-- Outcome of a proof route handler, modelled up to the point where it would
hand over to the proving service (`state.zk_prover.generate_*_proof`):
either a typed error is returned, or the handler panics on arithmetic
overflow, or the proving service is invoked with the parsed arguments. -/
inductive RouteOutcome where
  | error (e : ApiError)
  | panicOverflow
  | callProver (args : List Nat)
  deriving DecidableEq

/-- `generate_collateral_proof` (proof.rs:95-133) up to the proving-service
call: parse the three decimal fields in order, then the cheap pre-check
`collateral < threshold`. -/
def collateralRoute (collateral threshold salt : String) : RouteOutcome :=
  match parse_u128 collateral with
  | none => .error (.ValidationError ("Invalid number: " ++ collateral))
  | some c =>
    match parse_u128 threshold with
    | none => .error (.ValidationError ("Invalid number: " ++ threshold))
    | some t =>
      match parse_u128 salt with
      | none => .error (.ValidationError ("Invalid number: " ++ salt))
      | some s =>
        if c < t then .error (.ValidationError "Collateral is less than threshold")
        else .callProver [c, t, s]

/-- `generate_ltv_proof` (proof.rs:139-174) up to the proving-service call:
parse the four decimal fields in order (`max_ltv` arrives as a JSON `u64`),
then the pre-check `debt * 100 > collateral * max_ltv` with unchecked
`u128` multiplication. -/
def ltvRoute (collateral debt : String) (max_ltv : Nat) (collateral_salt debt_salt : String) :
    RouteOutcome :=
  match parse_u128 collateral with
  | none => .error (.ValidationError ("Invalid number: " ++ collateral))
  | some c =>
    match parse_u128 debt with
    | none => .error (.ValidationError ("Invalid number: " ++ debt))
    | some d =>
      match parse_u128 collateral_salt with
      | none => .error (.ValidationError ("Invalid number: " ++ collateral_salt))
      | some cs =>
        match parse_u128 debt_salt with
        | none => .error (.ValidationError ("Invalid number: " ++ debt_salt))
        | some ds =>
          match mul_u128 d 100, mul_u128 c max_ltv with
          | some dScaled, some cScaled =>
            if dScaled > cScaled then
              .error (.ValidationError ("LTV exceeds maximum: " ++ toString max_ltv ++ "%"))
            else .callProver [c, d, max_ltv, cs, ds]
          | _, _ => .panicOverflow

/-- `generate_liquidation_proof` (proof.rs:179-217) up to the proving-service
call: parse the four decimal fields in order (`liquidation_threshold`
arrives as a JSON `u64`), then the pre-check
`collateral * price * liquidation_threshold >= debt * 100 * 100_000_000`
with unchecked `u128` multiplication. -/
def liquidationRoute (collateral debt price : String) (liquidation_threshold : Nat)
    (salt : String) : RouteOutcome :=
  match parse_u128 collateral with
  | none => .error (.ValidationError ("Invalid number: " ++ collateral))
  | some c =>
    match parse_u128 debt with
    | none => .error (.ValidationError ("Invalid number: " ++ debt))
    | some d =>
      match parse_u128 price with
      | none => .error (.ValidationError ("Invalid number: " ++ price))
      | some p =>
        match parse_u128 salt with
        | none => .error (.ValidationError ("Invalid number: " ++ salt))
        | some s =>
          match (mul_u128 c p).bind (fun cp => mul_u128 cp liquidation_threshold),
                (mul_u128 d 100).bind (fun d100 => mul_u128 d100 100000000) with
          | some collateralValue, some debtValue =>
            if collateralValue ≥ debtValue then
              .error (.ValidationError "Position is not liquidatable (health factor >= 1.0)")
            else .callProver [c, d, p, liquidation_threshold, s]
          | _, _ => .panicOverflow

/-- `validation::validate_salt` (circuits error.rs:224-229): rejects a zero
salt.  Defined here because claim C8 refers to it; note that no route
handler ever calls it. -/
def validate_salt (salt : Nat) : Bool := salt ≠ 0

/-- Lowercase hex digit, as produced by `hex::encode`. -/
def hexDigit (n : Nat) : Char := if n < 10 then Char.ofNat (48 + n) else Char.ofNat (87 + n)

/-- `format!("0x{}", hex::encode(bytes))`: two lowercase hex digits per byte,
prefixed with `0x`. -/
def hexEncode0x (bytes : List Nat) : String :=
  ⟨'0' :: 'x' :: bytes.flatMap (fun b => [hexDigit (b / 16), hexDigit (b % 16)])⟩

/-- One 32-byte coordinate slice in `ZKProver::serialize_proof_to_groth16`
(zk_prover.rs:559-600): bytes `[start..start+32]` of the native proof when
the guard `len >= start + 32` holds, otherwise `[0u8; 32]`. -/
def proofSlice (proof_bytes : List Nat) (start : Nat) : List Nat :=
  if start + 32 ≤ proof_bytes.length then (proof_bytes.drop start).take 32
  else List.replicate 32 0

/-- `ProofData` (proof.rs:67-75): a G1-style point `a`, a G2-style point `b`,
and a G1-style point `c`, each coordinate a hex string. -/
structure ProofData where
  a : List String
  b : List (List String)
  c : List String
  deriving DecidableEq

/-- `ZKProver::serialize_proof_to_groth16` (zk_prover.rs:559-600): slice the
native proof bytes into eight 32-byte coordinates (zero-padded when the
proof is short) and hex-encode each with a `0x` prefix. -/
def serialize_proof_to_groth16 (proof_bytes : List Nat) : ProofData :=
  { a := [hexEncode0x (proofSlice proof_bytes 0), hexEncode0x (proofSlice proof_bytes 32)]
    b := [[hexEncode0x (proofSlice proof_bytes 64), hexEncode0x (proofSlice proof_bytes 96)],
          [hexEncode0x (proofSlice proof_bytes 128), hexEncode0x (proofSlice proof_bytes 160)]]
    c := [hexEncode0x (proofSlice proof_bytes 192), hexEncode0x (proofSlice proof_bytes 224)] }

/-- The eight coordinates of a `ProofData` in wire order:
`a.x, a.y, b.x1, b.x2, b.y1, b.y2, c.x, c.y`. -/
def proofCoords (pd : ProofData) : List String := pd.a ++ pd.b.flatten ++ pd.c

/-- A lowercase hex digit character. -/
def isHexChar (c : Char) : Bool :=
  (48 ≤ c.toNat && c.toNat ≤ 57) || (97 ≤ c.toNat && c.toNat ≤ 102)

/-- Fuel-bounded modular exponentiation by repeated squaring, used to certify
facts about the Pallas modulus by kernel computation. -/
def powModF (n : Nat) : Nat → Nat → Nat → Nat
  | 0, _, _ => 1 % n
  | fuel + 1, a, e =>
    if e = 0 then 1 % n
    else
      let r := powModF n fuel (a * a % n) (e / 2)
      if e % 2 = 1 then r * (a % n) % n else r

section SanityChecks

example : rangeCheckSat 4 3 := by decide
example : ¬ rangeCheckSat 4 16 := by decide
example : gteSat 4 5 3 := by decide
example : ¬ gteSat 4 3 5 := by decide
example : gtSat 4 5 3 ∧ ¬ gtSat 4 3 3 := by decide
example : parse_u128 "123" = some 123 := by decide
example : parse_u128 "+07" = some 7 := by decide
example : parse_u128 "" = none := by decide
example : parse_u128 "12x" = none := by decide
example : collateralRoute "4" "5" "9" = .error (.ValidationError "Collateral is less than threshold") := by decide
example : collateralRoute "10" "5" "0" = .callProver [10, 5, 0] := by decide

end SanityChecks

/-! ## Field-arithmetic helper lemmas -/

/-- Membership in the range-check table is exactly a bound on the canonical
value of the field element. -/
theorem mem_rangeTable_iff {BITS : Nat} (h : 2 ^ BITS ≤ P) (v : F) :
    rangeCheckSat BITS v ↔ v.val < 2 ^ BITS := by
  have hmem : rangeCheckSat BITS v ↔
      v ∈ (List.range (2 ^ BITS)).map (fun i => (Nat.cast i : F)) := Iff.rfl
  rw [hmem, List.mem_map]
  constructor
  · rintro ⟨i, hi, rfl⟩
    rw [List.mem_range] at hi
    rwa [ZMod.val_cast_of_lt (lt_of_lt_of_le hi h)]
  · intro hv
    exact ⟨v.val, List.mem_range.mpr hv, ZMod.natCast_rightInverse v⟩

/-- Field subtraction without wraparound. -/
theorem val_sub_of_le {a b : F} (h : b.val ≤ a.val) : (a - b).val = a.val - b.val := by
  have ha : ((a.val : Nat) : F) = a := ZMod.natCast_rightInverse a
  have hb : ((b.val : Nat) : F) = b := ZMod.natCast_rightInverse b
  have hsub : a - b = ((a.val - b.val : Nat) : F) := by
    rw [Nat.cast_sub h, ha, hb]
  rw [hsub, ZMod.val_cast_of_lt (lt_of_le_of_lt (Nat.sub_le _ _) (ZMod.val_lt a))]

/-- Field subtraction with wraparound: when `a < b` the difference wraps to
`P - (b - a)`. -/
theorem val_sub_of_lt {a b : F} (h : a.val < b.val) :
    (a - b).val = P - (b.val - a.val) := by
  have hba : (b - a).val = b.val - a.val := val_sub_of_le (le_of_lt h)
  have hne : b - a ≠ 0 := by
    intro h0
    rw [h0, ZMod.val_zero] at hba
    omega
  have hneg : a - b = -(b - a) := by ring
  rw [hneg, ZMod.neg_val, if_neg hne, hba]

/-- Satisfiability of the `gte` comparison constraints, given operands whose
values are already bounded by the range-check bound (the gadget's standing
precondition, with the bound on `b` relaxed to `≤` so the lemma also serves
the `gt`-as-`gte (b+1)` reduction). -/
theorem gteSat_iff {BITS : Nat} {a b : F} (hP : 2 ^ (BITS + 1) ≤ P)
    (ha : a.val < 2 ^ BITS) (hb : b.val ≤ 2 ^ BITS) :
    gteSat BITS a b ↔ b.val ≤ a.val := by
  have h2 : 2 ^ (BITS + 1) = 2 ^ BITS + 2 ^ BITS := by rw [pow_succ]; ring
  have hPB : 2 ^ BITS ≤ P := by omega
  unfold gteSat
  rw [mem_rangeTable_iff hPB]
  constructor
  · intro hlt
    by_contra hab
    push_neg at hab
    rw [val_sub_of_lt hab] at hlt
    omega
  · intro hba
    rw [val_sub_of_le hba]
    omega

/-- When `a < b` the wrapped difference lands at or above the range bound, so
the lookup cannot succeed. -/
theorem sub_val_large_of_lt {BITS : Nat} {a b : F} (hP : 2 ^ (BITS + 1) ≤ P)
    (hb : b.val ≤ 2 ^ BITS) (hab : a.val < b.val) :
    2 ^ BITS ≤ (a - b).val := by
  have h2 : 2 ^ (BITS + 1) = 2 ^ BITS + 2 ^ BITS := by rw [pow_succ]; ring
  rw [val_sub_of_lt hab]
  omega

/-- The range bound used by every domain circuit fits the Pallas modulus with
room to spare. -/
theorem range16_le : 2 ^ (RANGE_BITS + 1) ≤ P := by
  unfold RANGE_BITS P
  norm_num

/-- `gte` on embedded machine integers that respect the standing range
precondition decides exactly the integer comparison. -/
theorem gteSat_cast_iff {x y : Nat} (hx : x < 2 ^ RANGE_BITS) (hy : y ≤ 2 ^ RANGE_BITS) :
    gteSat RANGE_BITS ((x : Nat) : F) ((y : Nat) : F) ↔ y ≤ x := by
  have hPB : 2 ^ RANGE_BITS < P := by unfold RANGE_BITS P; norm_num
  have hx' : (((x : Nat) : F)).val = x := ZMod.val_cast_of_lt (lt_trans hx hPB)
  have hy' : (((y : Nat) : F)).val = y := ZMod.val_cast_of_lt (lt_of_le_of_lt hy hPB)
  rw [gteSat_iff range16_le (by rw [hx']; exact hx) (by rw [hy']; exact hy), hx', hy']

/-- For range-respecting witnesses, the Liquidation circuit's constraint system
(with an arbitrary verifier-supplied prefix `i0, i1` of the instance column)
is satisfiable exactly when `collateral * price * liquidation_threshold <
debt * PRECISION`, with `PRECISION = 100`. -/
theorem liquidationSat_iff (c d p lt : Nat) (s i0 i1 : F)
    (hcv : c * p * lt < 2 ^ RANGE_BITS) (hds : d * PRECISION < 2 ^ RANGE_BITS) :
    (liquidationSat ((c : Nat) : F) ((d : Nat) : F) s ((p : Nat) : F) ((lt : Nat) : F)
        [i0, i1, compute_position_hash ((c : Nat) : F) ((d : Nat) : F) s] ↔
      c * p * lt < d * PRECISION) := by
  unfold liquidationSat liquidationConstraints liquidationSynthesize gtSat
  dsimp only
  have e1 : (((d : Nat) : F) * ((PRECISION : Nat) : F)) = (((d * PRECISION : Nat)) : F) := by
    push_cast
    ring
  have e2 : (((c : Nat) : F) * ((p : Nat) : F) * ((lt : Nat) : F) + 1) =
      (((c * p * lt + 1 : Nat)) : F) := by
    push_cast
    ring
  have hcv1 : c * p * lt + 1 ≤ 2 ^ RANGE_BITS := hcv
  constructor
  · rintro ⟨-, -, -, -, h5⟩
    rw [e1, e2] at h5
    have := (gteSat_cast_iff hds hcv1).mp h5
    omega
  · intro h
    refine ⟨rfl, rfl, rfl, rfl, ?_⟩
    rw [e1, e2]
    exact (gteSat_cast_iff hds hcv1).mpr (by omega)

/-- For range-respecting witnesses, the LTV circuit's constraint system (with
an arbitrary verifier-supplied entry `i0` at instance index 0) is
satisfiable exactly when `debt * PRECISION ≤ collateral * max_ltv`. -/
theorem ltvSat_iff (d c ml : Nat) (sd sc i0 : F)
    (hcs : c * ml < 2 ^ RANGE_BITS) (hds : d * PRECISION ≤ 2 ^ RANGE_BITS) :
    (ltvSat ((d : Nat) : F) ((c : Nat) : F) sd sc ((ml : Nat) : F)
        [i0, compute_commitment ((d : Nat) : F) sd, compute_commitment ((c : Nat) : F) sc] ↔
      d * PRECISION ≤ c * ml) := by
  unfold ltvSat ltvConstraints ltvSynthesize
  dsimp only
  have e1 : (((d : Nat) : F) * ((PRECISION : Nat) : F)) = (((d * PRECISION : Nat)) : F) := by
    push_cast
    ring
  have e2 : (((c : Nat) : F) * ((ml : Nat) : F)) = (((c * ml : Nat)) : F) := by
    push_cast
    ring
  constructor
  · rintro ⟨-, -, -, -, -, h6⟩
    rw [e1, e2] at h6
    exact (gteSat_cast_iff hcs hds).mp h6
  · intro h
    refine ⟨rfl, rfl, rfl, rfl, rfl, ?_⟩
    rw [e1, e2]
    exact (gteSat_cast_iff hcs hds).mpr h

/-! ## Claim theorems -/

/-- Claim C3: for operands already range-checked into `[0, 2^BITS)`, the `gte`
constraints (gate `diff = a - b` plus lookup of `diff` in the `[0, 2^BITS)`
table) are satisfiable exactly when `a ≥ b` as integers; and when `a < b`
the difference wraps to `modulus - (b - a)`, which lies at or above
`2^BITS` and therefore outside the table. -/
theorem C3_gte_constraints_iff (BITS : Nat) (a b : F) (hP : 2 ^ (BITS + 1) ≤ P)
    (ha : a.val < 2 ^ BITS) (hb : b.val < 2 ^ BITS) :
    (gteSat BITS a b ↔ b.val ≤ a.val) ∧
    (a.val < b.val → (a - b).val = P - (b.val - a.val) ∧ 2 ^ BITS ≤ (a - b).val) :=
  ⟨gteSat_iff hP ha (le_of_lt hb),
   fun hab => ⟨val_sub_of_lt hab, sub_val_large_of_lt hP (le_of_lt hb) hab⟩⟩

/-- Witness for C3 at `BITS = 16`, `a = 5`, `b = 3`. -/
theorem C3_gte_constraints_iff_witness :
    (2 ^ (16 + 1) ≤ P ∧ (((5 : Nat) : F)).val < 2 ^ 16 ∧ (((3 : Nat) : F)).val < 2 ^ 16) ∧
    ((gteSat 16 ((5 : Nat) : F) ((3 : Nat) : F) ↔
        (((3 : Nat) : F)).val ≤ (((5 : Nat) : F)).val) ∧
      ((((5 : Nat) : F)).val < (((3 : Nat) : F)).val →
        (((5 : Nat) : F) - ((3 : Nat) : F)).val =
            P - ((((3 : Nat) : F)).val - (((5 : Nat) : F)).val) ∧
          2 ^ 16 ≤ (((5 : Nat) : F) - ((3 : Nat) : F)).val)) :=
  ⟨⟨by decide, by decide, by decide⟩,
   C3_gte_constraints_iff 16 ((5 : Nat) : F) ((3 : Nat) : F) (by decide) (by decide) (by decide)⟩

/-- Claim C5: `gt(a, b)` imposes exactly the constraints of `gte(a, b + 1)`,
and on equal in-range operands `gte` is satisfiable while `gt` is not. -/
theorem C5_gt_is_gte_succ (BITS : Nat) (a : F) (hP : 2 ^ (BITS + 1) ≤ P)
    (ha : a.val < 2 ^ BITS) :
    (∀ b : F, gtSat BITS a b ↔ gteSat BITS a (b + 1)) ∧
    gteSat BITS a a ∧ ¬ gtSat BITS a a := by
  have h2 : 2 ^ (BITS + 1) = 2 ^ BITS + 2 ^ BITS := by rw [pow_succ]; ring
  have hPB : 2 ^ BITS ≤ P := by omega
  have hP1 : 1 < P := by
    have : 0 < 2 ^ BITS := Nat.pos_pow_of_pos BITS (by norm_num)
    omega
  refine ⟨fun b => Iff.rfl, ?_, ?_⟩
  · have h0 : a - a = ((0 : Nat) : F) := by push_cast; ring
    have : rangeCheckSat BITS (a - a) := by
      rw [h0, mem_rangeTable_iff hPB]
      rw [ZMod.val_cast_of_lt (by omega)]
      have : 0 < 2 ^ BITS := Nat.pos_pow_of_pos BITS (by norm_num)
      omega
    exact this
  · intro hgt
    have hneg : a - (a + 1) = -1 := by ring
    have hmem : (a - (a + 1)).val < 2 ^ BITS := (mem_rangeTable_iff hPB _).mp hgt
    haveI : Fact (1 < P) := ⟨hP1⟩
    have hone : ((1 : F)).val = 1 := ZMod.val_one P
    have hne : (1 : F) ≠ 0 := by
      intro h
      rw [h, ZMod.val_zero] at hone
      omega
    rw [hneg, ZMod.neg_val, if_neg hne, hone] at hmem
    omega

/-- Witness for C5 at `BITS = 16`, `a = 7`. -/
theorem C5_gt_is_gte_succ_witness :
    (2 ^ (16 + 1) ≤ P ∧ (((7 : Nat) : F)).val < 2 ^ 16) ∧
    ((∀ b : F, gtSat 16 ((7 : Nat) : F) b ↔ gteSat 16 ((7 : Nat) : F) (b + 1)) ∧
      gteSat 16 ((7 : Nat) : F) ((7 : Nat) : F) ∧
      ¬ gtSat 16 ((7 : Nat) : F) ((7 : Nat) : F)) :=
  ⟨⟨by decide, by decide⟩, C5_gt_is_gte_succ 16 ((7 : Nat) : F) (by decide) (by decide)⟩

/-- Claim C6: with `BITS = 8` the range-check gadget accepts the witness values
0, 1, 127 and 255 and rejects 256. -/
theorem C6_range_check_bits8 :
    rangeCheckSat 8 ((0 : Nat) : F) ∧ rangeCheckSat 8 ((1 : Nat) : F) ∧
    rangeCheckSat 8 ((127 : Nat) : F) ∧ rangeCheckSat 8 ((255 : Nat) : F) ∧
    ¬ rangeCheckSat 8 ((256 : Nat) : F) := by decide

/-- Claim C1 (failing-input evaluation): the LTV and Liquidation circuits do
not bind all their declared public inputs.  With the honest witness
`(collateral, debt, salt, price, liq_threshold) = (100, 90, 99999, 1, 85)`
the Liquidation constraint system is satisfied by an instance column whose
entries 0 and 1 (`12345`, `54321`) differ from the witness price `1` and
threshold `85`; with the honest witness
`(debt, collateral, max_ltv) = (60, 100, 80)` the LTV constraint system is
satisfied by an instance column whose entry 0 (`777`) differs from the
witness `max_ltv = 80`.  Only `constrain_instance` calls for indices 2
(liquidation.rs:322) resp. 1, 2 (ltv.rs:277-278) exist. -/
theorem C1_instance_not_bound :
    (liquidationSat ((100 : Nat) : F) ((90 : Nat) : F) ((99999 : Nat) : F) ((1 : Nat) : F)
        ((85 : Nat) : F)
        [((12345 : Nat) : F), ((54321 : Nat) : F),
          compute_position_hash ((100 : Nat) : F) ((90 : Nat) : F) ((99999 : Nat) : F)] ∧
      ((12345 : Nat) : F) ≠ ((1 : Nat) : F) ∧ ((54321 : Nat) : F) ≠ ((85 : Nat) : F)) ∧
    (ltvSat ((60 : Nat) : F) ((100 : Nat) : F) ((11111 : Nat) : F) ((22222 : Nat) : F)
        ((80 : Nat) : F)
        [((777 : Nat) : F), compute_commitment ((60 : Nat) : F) ((11111 : Nat) : F),
          compute_commitment ((100 : Nat) : F) ((22222 : Nat) : F)] ∧
      ((777 : Nat) : F) ≠ ((80 : Nat) : F)) := by
  refine ⟨⟨?_, by decide, by decide⟩, ⟨?_, by decide⟩⟩
  · exact (liquidationSat_iff 100 90 1 85 _ _ _ (by decide) (by decide)).mpr (by decide)
  · exact (ltvSat_iff 60 100 80 _ _ _ (by decide) (by decide)).mpr (by decide)

/-- Claim C2 (counterexample): the honest witness
`(collateral, debt, salt, price, liq_threshold) = (100, 1, 7, 1, 85)` keeps
every circuit product below `2^16`, satisfies the claimed condition
`collateral * price * liq_threshold < debt * 100 * PRICE_SCALE`
(`8500 < 10^10`), yet the Liquidation constraint system is unsatisfiable,
because the circuit compares against `debt * 100` without the service's
`PRICE_SCALE = 10^8` factor (`8500 ≥ 100`). -/
theorem C2_counterexample :
    (100 * 1 * 85 < 2 ^ RANGE_BITS ∧ 1 * PRECISION < 2 ^ RANGE_BITS) ∧
    100 * 1 * 85 < 1 * 100 * 100000000 ∧
    ¬ liquidationSat ((100 : Nat) : F) ((1 : Nat) : F) ((7 : Nat) : F) ((1 : Nat) : F)
        ((85 : Nat) : F)
        [((1 : Nat) : F), ((85 : Nat) : F),
          compute_position_hash ((100 : Nat) : F) ((1 : Nat) : F) ((7 : Nat) : F)] := by
  refine ⟨⟨by decide, by decide⟩, by decide, fun h => ?_⟩
  have := (liquidationSat_iff 100 1 1 85 ((7 : Nat) : F) _ _ (by decide) (by decide)).mp h
  revert this
  decide

/-- Claim C2 (amended): for honest witnesses whose circuit products stay below
the range-check bound, the Liquidation circuit's constraint system — with
the service-supplied instance column `[price, liq_threshold,
position_hash]` (zk_prover.rs:497) — is satisfiable exactly when
`collateral * price * liq_threshold < debt * PRECISION` with
`PRECISION = 100`; the service pre-check's extra `PRICE_SCALE = 10^8`
factor (proof.rs:195) does not appear in the circuit. -/
theorem C2_liquidation_sat_iff (c d p lt : Nat) (s : F)
    (hcv : c * p * lt < 2 ^ RANGE_BITS) (hds : d * PRECISION < 2 ^ RANGE_BITS) :
    (liquidationSat ((c : Nat) : F) ((d : Nat) : F) s ((p : Nat) : F) ((lt : Nat) : F)
        [((p : Nat) : F), ((lt : Nat) : F),
          compute_position_hash ((c : Nat) : F) ((d : Nat) : F) s] ↔
      c * p * lt < d * PRECISION) :=
  liquidationSat_iff c d p lt s _ _ hcv hds

/-- Witness for the amended C2 at the repository's own test scenario
(liquidation.rs:366-378): `collateral = 100, debt = 90, price = 1,
liq_threshold = 85`. -/
theorem C2_liquidation_sat_iff_witness :
    (100 * 1 * 85 < 2 ^ RANGE_BITS ∧ 90 * PRECISION < 2 ^ RANGE_BITS) ∧
    (liquidationSat ((100 : Nat) : F) ((90 : Nat) : F) ((3 : Nat) : F) ((1 : Nat) : F)
        ((85 : Nat) : F)
        [((1 : Nat) : F), ((85 : Nat) : F),
          compute_position_hash ((100 : Nat) : F) ((90 : Nat) : F) ((3 : Nat) : F)] ↔
      100 * 1 * 85 < 90 * PRECISION) :=
  ⟨⟨by decide, by decide⟩,
   C2_liquidation_sat_iff 100 90 1 85 ((3 : Nat) : F) (by decide) (by decide)⟩

/-- Claim C7: whenever the parsed collateral is strictly below the parsed
threshold, the collateral handler stops at the cheap pre-check with a typed
validation error: the outcome is never the proving-service call, and when
the salt also parses the error is exactly the pre-check's descriptive
message. -/
theorem C7_collateral_precheck (collateral threshold salt : String) (c t : Nat)
    (hc : parse_u128 collateral = some c) (ht : parse_u128 threshold = some t)
    (hlt : c < t) :
    (∃ msg, collateralRoute collateral threshold salt = .error (.ValidationError msg)) ∧
    (∀ args, collateralRoute collateral threshold salt ≠ .callProver args) ∧
    (∀ s, parse_u128 salt = some s →
      collateralRoute collateral threshold salt =
        .error (.ValidationError "Collateral is less than threshold")) := by
  unfold collateralRoute
  rw [hc, ht]
  cases hs : parse_u128 salt with
  | none =>
    dsimp only
    exact ⟨⟨"Invalid number: " ++ salt, rfl⟩, fun args h => RouteOutcome.noConfusion h,
      fun s h => by simp [hs] at h⟩
  | some s =>
    dsimp only
    rw [if_pos hlt]
    exact ⟨⟨_, rfl⟩, fun args h => RouteOutcome.noConfusion h, fun s' h => rfl⟩

/-- Witness for C7: the request `collateral = "4", threshold = "5",
salt = "9"`. -/
theorem C7_collateral_precheck_witness :
    (parse_u128 "4" = some 4 ∧ parse_u128 "5" = some 5 ∧ 4 < 5) ∧
    ((∃ msg, collateralRoute "4" "5" "9" = .error (.ValidationError msg)) ∧
      (∀ args, collateralRoute "4" "5" "9" ≠ .callProver args) ∧
      (∀ s, parse_u128 "9" = some s →
        collateralRoute "4" "5" "9" =
          .error (.ValidationError "Collateral is less than threshold"))) :=
  ⟨⟨by decide, by decide, by decide⟩,
   C7_collateral_precheck "4" "5" "9" 4 5 (by decide) (by decide) (by decide)⟩

/-- Claim C8 (counterexample): a request whose salt is the zero string `"0"`
is not rejected — it reaches the proving-service call with salt `0`, even
though `validation::validate_salt` (which no handler invokes) classifies a
zero salt as invalid. -/
theorem C8_counterexample :
    collateralRoute "10" "5" "0" = .callProver [10, 5, 0] ∧ validate_salt 0 = false := by
  decide

/-- Claim C8 (amended): a malformed numeric string in any field makes each
handler return a typed validation error before the proving service is
reached; a zero salt, by contrast, is not filtered: a well-formed request
with salt `"0"` whose pre-check passes proceeds to the proving-service
call. -/
theorem C8_malformed_rejected_zero_salt_not :
    (∀ c t s, (parse_u128 c = none ∨ parse_u128 t = none ∨ parse_u128 s = none) →
      ∃ msg, collateralRoute c t s = .error (.ValidationError msg)) ∧
    (∀ c d ml cs ds,
      (parse_u128 c = none ∨ parse_u128 d = none ∨ parse_u128 cs = none ∨
        parse_u128 ds = none) →
      ∃ msg, ltvRoute c d ml cs ds = .error (.ValidationError msg)) ∧
    (∀ c d p lt s,
      (parse_u128 c = none ∨ parse_u128 d = none ∨ parse_u128 p = none ∨
        parse_u128 s = none) →
      ∃ msg, liquidationRoute c d p lt s = .error (.ValidationError msg)) ∧
    (∀ c t cv tv, parse_u128 c = some cv → parse_u128 t = some tv → tv ≤ cv →
      collateralRoute c t "0" = .callProver [cv, tv, 0]) := by
  refine ⟨?_, ?_, ?_, ?_⟩
  · intro c t s h
    unfold collateralRoute
    rcases h with h | h | h
    · rw [h]; exact ⟨_, rfl⟩
    · cases hc : parse_u128 c with
      | none => exact ⟨_, rfl⟩
      | some cv => rw [h]; exact ⟨_, rfl⟩
    · cases hc : parse_u128 c with
      | none => exact ⟨_, rfl⟩
      | some cv =>
        cases ht : parse_u128 t with
        | none => exact ⟨_, rfl⟩
        | some tv => rw [h]; exact ⟨_, rfl⟩
  · intro c d ml cs ds h
    unfold ltvRoute
    rcases h with h | h | h | h
    · rw [h]; exact ⟨_, rfl⟩
    · cases hc : parse_u128 c with
      | none => exact ⟨_, rfl⟩
      | some cv => rw [h]; exact ⟨_, rfl⟩
    · cases hc : parse_u128 c with
      | none => exact ⟨_, rfl⟩
      | some cv =>
        cases hd : parse_u128 d with
        | none => exact ⟨_, rfl⟩
        | some dv => rw [h]; exact ⟨_, rfl⟩
    · cases hc : parse_u128 c with
      | none => exact ⟨_, rfl⟩
      | some cv =>
        cases hd : parse_u128 d with
        | none => exact ⟨_, rfl⟩
        | some dv =>
          cases hcs : parse_u128 cs with
          | none => exact ⟨_, rfl⟩
          | some csv => rw [h]; exact ⟨_, rfl⟩
  · intro c d p lt s h
    unfold liquidationRoute
    rcases h with h | h | h | h
    · rw [h]; exact ⟨_, rfl⟩
    · cases hc : parse_u128 c with
      | none => exact ⟨_, rfl⟩
      | some cv => rw [h]; exact ⟨_, rfl⟩
    · cases hc : parse_u128 c with
      | none => exact ⟨_, rfl⟩
      | some cv =>
        cases hd : parse_u128 d with
        | none => exact ⟨_, rfl⟩
        | some dv => rw [h]; exact ⟨_, rfl⟩
    · cases hc : parse_u128 c with
      | none => exact ⟨_, rfl⟩
      | some cv =>
        cases hd : parse_u128 d with
        | none => exact ⟨_, rfl⟩
        | some dv =>
          cases hp : parse_u128 p with
          | none => exact ⟨_, rfl⟩
          | some pv => rw [h]; exact ⟨_, rfl⟩
  · intro c t cv tv hc ht hle
    unfold collateralRoute
    have h0 : parse_u128 "0" = some 0 := by decide
    rw [hc, ht, h0]
    dsimp only
    rw [if_neg (by omega)]

/-- Witness for the amended C8: the malformed collateral string `"xx"`. -/
theorem C8_malformed_rejected_zero_salt_not_witness :
    parse_u128 "xx" = none ∧
    (∃ msg, collateralRoute "xx" "5" "7" = .error (.ValidationError msg)) :=
  ⟨by decide, C8_malformed_rejected_zero_salt_not.1 "xx" "5" "7" (Or.inl (by decide))⟩

/-- Claim C10: the LTV and liquidation pre-checks use unchecked `u128`
multiplication; the syntactically valid request with
`debt = 2^127 = 170141183460469231731687303715884105728` makes
`debt * 100` exceed `u128::MAX`, so under Rust's checked-arithmetic
semantics both handlers panic instead of returning a typed error. -/
theorem C10_precheck_overflow_panics :
    ltvRoute "1" "170141183460469231731687303715884105728" 1 "1" "1" = .panicOverflow ∧
    liquidationRoute "1" "170141183460469231731687303715884105728" "1" 1 "1" =
      .panicOverflow := by
  decide

/-- Every coordinate slice has exactly 32 bytes. -/
theorem proofSlice_length (bytes : List Nat) (start : Nat) :
    (proofSlice bytes start).length = 32 := by
  unfold proofSlice
  split
  · rw [List.length_take, List.length_drop]
    omega
  · exact List.length_replicate 32 0

/-- Coordinate slices of byte-valued input are byte-valued. -/
theorem proofSlice_mem_lt {bytes : List Nat} (hb : ∀ x ∈ bytes, x < 256) {start x : Nat}
    (h : x ∈ proofSlice bytes start) : x < 256 := by
  unfold proofSlice at h
  split at h
  · exact hb x (List.drop_subset start bytes (List.take_subset 32 _ h))
  · rw [List.eq_of_mem_replicate h]
    norm_num

/-- The digit expansion of a byte list has two characters per byte. -/
theorem hexChars_length (bs : List Nat) :
    (bs.flatMap (fun b => [hexDigit (b / 16), hexDigit (b % 16)])).length = 2 * bs.length := by
  induction bs with
  | nil => rfl
  | cons b l ih =>
    simp only [List.flatMap_cons, List.length_append, List.length_cons, ih]
    simp only [List.length_nil]
    omega

/-- `hexDigit` of a nibble is a lowercase hex digit character. -/
theorem isHexChar_hexDigit {n : Nat} (h : n < 16) : isHexChar (hexDigit n) := by
  interval_cases n <;> decide

/-- Every character in the digit expansion of a byte list is a hex digit. -/
theorem hexChars_mem (bs : List Nat) (hmem : ∀ x ∈ bs, x < 256) :
    ∀ ch ∈ bs.flatMap (fun b => [hexDigit (b / 16), hexDigit (b % 16)]), isHexChar ch := by
  induction bs with
  | nil => intro ch h; cases h
  | cons b l ih =>
    intro ch h
    rw [List.flatMap_cons] at h
    rcases List.mem_append.mp h with h | h
    · have hbyte : b < 256 := hmem b (List.mem_cons_self b l)
      rcases h with _ | ⟨_, h⟩
      · exact isHexChar_hexDigit (by omega)
      · rcases h with _ | ⟨_, h⟩
        · exact isHexChar_hexDigit (by omega)
        · cases h
    · exact ih (fun x hx => hmem x (List.mem_cons_of_mem b hx)) ch h

/-- The full shape of one encoded coordinate: a `0x` prefix, 64 hex characters,
66 characters in total. -/
theorem hexEncode0x_spec (bs : List Nat) (hlen : bs.length = 32)
    (hmem : ∀ x ∈ bs, x < 256) :
    (hexEncode0x bs).length = 66 ∧ (hexEncode0x bs).data.take 2 = ['0', 'x'] ∧
    ∀ ch ∈ (hexEncode0x bs).data.drop 2, isHexChar ch := by
  unfold hexEncode0x
  refine ⟨?_, rfl, ?_⟩
  · show ('0' :: 'x' :: bs.flatMap _).length = 66
    rw [List.length_cons, List.length_cons, hexChars_length, hlen]
  · intro ch h
    exact hexChars_mem bs hmem ch h

/-- Claim C9: proof serialization always produces eight 32-byte hex
coordinates in the fixed `a / b / c` layout; each is `0x` followed by 64
lowercase hex characters; when the native proof has at least 256 bytes the
coordinates are its first eight consecutive 32-byte slices; and any slice
whose end lies past the input length is all zeros. -/
theorem C9_serialize_groth16_layout (bytes : List Nat) (hb : ∀ x ∈ bytes, x < 256) :
    (proofCoords (serialize_proof_to_groth16 bytes) =
        (List.range 8).map (fun i => hexEncode0x (proofSlice bytes (32 * i)))) ∧
    (∀ s ∈ proofCoords (serialize_proof_to_groth16 bytes),
        s.length = 66 ∧ s.data.take 2 = ['0', 'x'] ∧ ∀ ch ∈ s.data.drop 2, isHexChar ch) ∧
    (256 ≤ bytes.length →
        ∀ i, i < 8 → proofSlice bytes (32 * i) = (bytes.drop (32 * i)).take 32) ∧
    (∀ i, i < 8 → bytes.length < 32 * i + 32 →
        proofSlice bytes (32 * i) = List.replicate 32 0) := by
  have hcoord : ∀ start : Nat,
      (hexEncode0x (proofSlice bytes start)).length = 66 ∧
      (hexEncode0x (proofSlice bytes start)).data.take 2 = ['0', 'x'] ∧
      ∀ ch ∈ (hexEncode0x (proofSlice bytes start)).data.drop 2, isHexChar ch :=
    fun start => hexEncode0x_spec _ (proofSlice_length bytes start)
      (fun x hx => proofSlice_mem_lt hb hx)
  refine ⟨rfl, ?_, ?_, ?_⟩
  · intro s hs
    have : s = hexEncode0x (proofSlice bytes 0) ∨ s = hexEncode0x (proofSlice bytes 32) ∨
        s = hexEncode0x (proofSlice bytes 64) ∨ s = hexEncode0x (proofSlice bytes 96) ∨
        s = hexEncode0x (proofSlice bytes 128) ∨ s = hexEncode0x (proofSlice bytes 160) ∨
        s = hexEncode0x (proofSlice bytes 192) ∨ s = hexEncode0x (proofSlice bytes 224) := by
      simpa [proofCoords, serialize_proof_to_groth16] using hs
    rcases this with rfl | rfl | rfl | rfl | rfl | rfl | rfl | rfl <;> exact hcoord _
  · intro hlong i hi
    unfold proofSlice
    rw [if_pos (by omega)]
  · intro i hi hshort
    unfold proofSlice
    rw [if_neg (by omega)]

/-- Witness for C9: a concrete 300-byte native proof. -/
theorem C9_serialize_groth16_layout_witness :
    (∀ x ∈ List.replicate 300 171, x < 256) ∧
    ((proofCoords (serialize_proof_to_groth16 (List.replicate 300 171)) =
        (List.range 8).map (fun i => hexEncode0x (proofSlice (List.replicate 300 171) (32 * i)))) ∧
    (∀ s ∈ proofCoords (serialize_proof_to_groth16 (List.replicate 300 171)),
        s.length = 66 ∧ s.data.take 2 = ['0', 'x'] ∧ ∀ ch ∈ s.data.drop 2, isHexChar ch) ∧
    (256 ≤ (List.replicate 300 171 : List Nat).length →
        ∀ i, i < 8 → proofSlice (List.replicate 300 171) (32 * i) =
          ((List.replicate 300 171 : List Nat).drop (32 * i)).take 32) ∧
    (∀ i, i < 8 → (List.replicate 300 171 : List Nat).length < 32 * i + 32 →
        proofSlice (List.replicate 300 171) (32 * i) = List.replicate 32 0)) :=
  ⟨fun x hx => by rw [List.eq_of_mem_replicate hx]; norm_num,
   C9_serialize_groth16_layout (List.replicate 300 171)
     (fun x hx => by rw [List.eq_of_mem_replicate hx]; norm_num)⟩

/-- `powModF` computes modular exponentiation when given enough fuel. -/
theorem powModF_eq (n : Nat) :
    ∀ fuel a e : Nat, e < 2 ^ fuel → powModF n fuel a e = a ^ e % n := by
  intro fuel
  induction fuel with
  | zero =>
    intro a e he
    have he0 : e = 0 := by omega
    subst he0
    simp [powModF]
  | succ fuel ih =>
    intro a e he
    by_cases he0 : e = 0
    · subst he0
      simp [powModF]
    · have hehalf : e / 2 < 2 ^ fuel := by
        have : 2 ^ (fuel + 1) = 2 ^ fuel + 2 ^ fuel := by rw [pow_succ]; ring
        omega
      have hr : powModF n fuel (a * a % n) (e / 2) = (a * a % n) ^ (e / 2) % n :=
        ih (a * a % n) (e / 2) hehalf
      have hsq : (a * a % n) ^ (e / 2) % n = (a * a) ^ (e / 2) % n := by
        rw [← Nat.pow_mod]
      simp only [powModF, if_neg he0]
      have hmod2 : e % 2 = 1 ∨ e % 2 = 0 := by omega
      rcases hmod2 with h2 | h2
      · rw [if_pos h2, hr, hsq, ← Nat.mul_mod]
        congr 1
        have hexp : e = 2 * (e / 2) + 1 := by omega
        rw [← pow_two, ← pow_mul, ← pow_succ, ← hexp]
      · rw [if_neg (by omega : ¬ e % 2 = 1), hr, hsq]
        congr 1
        have hexp : e = 2 * (e / 2) := by omega
        rw [← pow_two, ← pow_mul, ← hexp]

/-- Bridge from the fuel-bounded computation to `ZMod` exponentiation. -/
theorem cast_powModF (n : Nat) (a e fuel : Nat) (h : e < 2 ^ fuel) :
    ((a : Nat) : ZMod n) ^ e = ((powModF n fuel a e : Nat) : ZMod n) := by
  rw [powModF_eq n fuel a e h, ZMod.natCast_mod, Nat.cast_pow]

/-- Claim C4 (counterexample): for the value `0` the commitment collapses —
`commitment(0, s) = 0` for every salt — so two distinct salts yield equal
commitments. -/
theorem C4_counterexample :
    compute_commitment ((0 : Nat) : F) ((5 : Nat) : F) =
      compute_commitment ((0 : Nat) : F) ((7 : Nat) : F) ∧
    ((5 : Nat) : F) ≠ ((7 : Nat) : F) := by decide
set_option maxRecDepth 100000 in
/-- Pratt-style Lucas certificate: `149503` is prime (a factor in the
recursive certification of the Pallas modulus). -/
theorem prime_149503 : Nat.Prime 149503 := by
  have hfact : (149503 : Nat) - 1 = 2 * 3 * 24917 := by decide
  have ha : ((3 : Nat) : ZMod 149503) ^ (149503 - 1) = 1 := by
    rw [cast_powModF 149503 3 (149503 - 1) 19 (by decide)]
    decide
  refine lucas_primality 149503 ((3 : Nat) : ZMod 149503) ha ?_
  intro r hr hdvd
  rw [hfact] at hdvd
  rcases (Nat.Prime.dvd_mul hr).mp hdvd with hdvd | hfac
  rotate_left
  · have hre : r = 24917 := (Nat.prime_dvd_prime_iff_eq hr (by norm_num : Nat.Prime 24917)).mp hfac
    subst hre
    intro h1
    have h2 : powModF 149503 19 3 ((149503 - 1) / 24917) % 149503 = 1 % 149503 := by
      refine (ZMod.natCast_eq_natCast_iff _ _ _).mp ?_
      rw [← cast_powModF 149503 3 ((149503 - 1) / 24917) 19 (by decide), h1]
      exact Nat.cast_one.symm
    revert h2
    decide
  rcases (Nat.Prime.dvd_mul hr).mp hdvd with hdvd | hfac
  rotate_left
  · have hre : r = 3 := (Nat.prime_dvd_prime_iff_eq hr (by norm_num : Nat.Prime 3)).mp hfac
    subst hre
    intro h1
    have h2 : powModF 149503 19 3 ((149503 - 1) / 3) % 149503 = 1 % 149503 := by
      refine (ZMod.natCast_eq_natCast_iff _ _ _).mp ?_
      rw [← cast_powModF 149503 3 ((149503 - 1) / 3) 19 (by decide), h1]
      exact Nat.cast_one.symm
    revert h2
    decide
  have hre : r = 2 := (Nat.prime_dvd_prime_iff_eq hr (by norm_num : Nat.Prime 2)).mp hdvd
  subst hre
  intro h1
  have h2 : powModF 149503 19 3 ((149503 - 1) / 2) % 149503 = 1 % 149503 := by
    refine (ZMod.natCast_eq_natCast_iff _ _ _).mp ?_
    rw [← cast_powModF 149503 3 ((149503 - 1) / 2) 19 (by decide), h1]
    exact Nat.cast_one.symm
  revert h2
  decide

set_option maxRecDepth 100000 in
/-- Pratt-style Lucas certificate: `897019` is prime (a factor in the
recursive certification of the Pallas modulus). -/
theorem prime_897019 : Nat.Prime 897019 := by
  have hfact : (897019 : Nat) - 1 = 2 * 3 * 149503 := by decide
  have ha : ((2 : Nat) : ZMod 897019) ^ (897019 - 1) = 1 := by
    rw [cast_powModF 897019 2 (897019 - 1) 21 (by decide)]
    decide
  refine lucas_primality 897019 ((2 : Nat) : ZMod 897019) ha ?_
  intro r hr hdvd
  rw [hfact] at hdvd
  rcases (Nat.Prime.dvd_mul hr).mp hdvd with hdvd | hfac
  rotate_left
  · have hre : r = 149503 := (Nat.prime_dvd_prime_iff_eq hr prime_149503).mp hfac
    subst hre
    intro h1
    have h2 : powModF 897019 21 2 ((897019 - 1) / 149503) % 897019 = 1 % 897019 := by
      refine (ZMod.natCast_eq_natCast_iff _ _ _).mp ?_
      rw [← cast_powModF 897019 2 ((897019 - 1) / 149503) 21 (by decide), h1]
      exact Nat.cast_one.symm
    revert h2
    decide
  rcases (Nat.Prime.dvd_mul hr).mp hdvd with hdvd | hfac
  rotate_left
  · have hre : r = 3 := (Nat.prime_dvd_prime_iff_eq hr (by norm_num : Nat.Prime 3)).mp hfac
    subst hre
    intro h1
    have h2 : powModF 897019 21 2 ((897019 - 1) / 3) % 897019 = 1 % 897019 := by
      refine (ZMod.natCast_eq_natCast_iff _ _ _).mp ?_
      rw [← cast_powModF 897019 2 ((897019 - 1) / 3) 21 (by decide), h1]
      exact Nat.cast_one.symm
    revert h2
    decide
  have hre : r = 2 := (Nat.prime_dvd_prime_iff_eq hr (by norm_num : Nat.Prime 2)).mp hdvd
  subst hre
  intro h1
  have h2 : powModF 897019 21 2 ((897019 - 1) / 2) % 897019 = 1 % 897019 := by
    refine (ZMod.natCast_eq_natCast_iff _ _ _).mp ?_
    rw [← cast_powModF 897019 2 ((897019 - 1) / 2) 21 (by decide), h1]
    exact Nat.cast_one.symm
  revert h2
  decide

set_option maxRecDepth 100000 in
/-- Pratt-style Lucas certificate: `417677162933` is prime (a factor in the
recursive certification of the Pallas modulus). -/
theorem prime_417677162933 : Nat.Prime 417677162933 := by
  have hfact : (417677162933 : Nat) - 1 = 2 ^ 2 * 59 * 1973 * 897019 := by decide
  have ha : ((2 : Nat) : ZMod 417677162933) ^ (417677162933 - 1) = 1 := by
    rw [cast_powModF 417677162933 2 (417677162933 - 1) 40 (by decide)]
    decide
  refine lucas_primality 417677162933 ((2 : Nat) : ZMod 417677162933) ha ?_
  intro r hr hdvd
  rw [hfact] at hdvd
  rcases (Nat.Prime.dvd_mul hr).mp hdvd with hdvd | hfac
  rotate_left
  · have hre : r = 897019 := (Nat.prime_dvd_prime_iff_eq hr prime_897019).mp hfac
    subst hre
    intro h1
    have h2 : powModF 417677162933 40 2 ((417677162933 - 1) / 897019) % 417677162933 = 1 % 417677162933 := by
      refine (ZMod.natCast_eq_natCast_iff _ _ _).mp ?_
      rw [← cast_powModF 417677162933 2 ((417677162933 - 1) / 897019) 40 (by decide), h1]
      exact Nat.cast_one.symm
    revert h2
    decide
  rcases (Nat.Prime.dvd_mul hr).mp hdvd with hdvd | hfac
  rotate_left
  · have hre : r = 1973 := (Nat.prime_dvd_prime_iff_eq hr (by norm_num : Nat.Prime 1973)).mp hfac
    subst hre
    intro h1
    have h2 : powModF 417677162933 40 2 ((417677162933 - 1) / 1973) % 417677162933 = 1 % 417677162933 := by
      refine (ZMod.natCast_eq_natCast_iff _ _ _).mp ?_
      rw [← cast_powModF 417677162933 2 ((417677162933 - 1) / 1973) 40 (by decide), h1]
      exact Nat.cast_one.symm
    revert h2
    decide
  rcases (Nat.Prime.dvd_mul hr).mp hdvd with hdvd | hfac
  rotate_left
  · have hre : r = 59 := (Nat.prime_dvd_prime_iff_eq hr (by norm_num : Nat.Prime 59)).mp hfac
    subst hre
    intro h1
    have h2 : powModF 417677162933 40 2 ((417677162933 - 1) / 59) % 417677162933 = 1 % 417677162933 := by
      refine (ZMod.natCast_eq_natCast_iff _ _ _).mp ?_
      rw [← cast_powModF 417677162933 2 ((417677162933 - 1) / 59) 40 (by decide), h1]
      exact Nat.cast_one.symm
    revert h2
    decide
  have hre : r = 2 := (Nat.prime_dvd_prime_iff_eq hr (by norm_num : Nat.Prime 2)).mp (hr.dvd_of_dvd_pow hdvd)
  subst hre
  intro h1
  have h2 : powModF 417677162933 40 2 ((417677162933 - 1) / 2) % 417677162933 = 1 % 417677162933 := by
    refine (ZMod.natCast_eq_natCast_iff _ _ _).mp ?_
    rw [← cast_powModF 417677162933 2 ((417677162933 - 1) / 2) 40 (by decide), h1]
    exact Nat.cast_one.symm
  revert h2
  decide

set_option maxRecDepth 100000 in
/-- Pratt-style Lucas certificate: `539204044132271846773` is prime (a factor in the
recursive certification of the Pallas modulus). -/
theorem prime_539204044132271846773 : Nat.Prime 539204044132271846773 := by
  have hfact : (539204044132271846773 : Nat) - 1 = 2 ^ 2 * 3 ^ 5 * 89 * 14923 * 417677162933 := by decide
  have ha : ((5 : Nat) : ZMod 539204044132271846773) ^ (539204044132271846773 - 1) = 1 := by
    rw [cast_powModF 539204044132271846773 5 (539204044132271846773 - 1) 70 (by decide)]
    decide
  refine lucas_primality 539204044132271846773 ((5 : Nat) : ZMod 539204044132271846773) ha ?_
  intro r hr hdvd
  rw [hfact] at hdvd
  rcases (Nat.Prime.dvd_mul hr).mp hdvd with hdvd | hfac
  rotate_left
  · have hre : r = 417677162933 := (Nat.prime_dvd_prime_iff_eq hr prime_417677162933).mp hfac
    subst hre
    intro h1
    have h2 : powModF 539204044132271846773 70 5 ((539204044132271846773 - 1) / 417677162933) % 539204044132271846773 = 1 % 539204044132271846773 := by
      refine (ZMod.natCast_eq_natCast_iff _ _ _).mp ?_
      rw [← cast_powModF 539204044132271846773 5 ((539204044132271846773 - 1) / 417677162933) 70 (by decide), h1]
      exact Nat.cast_one.symm
    revert h2
    decide
  rcases (Nat.Prime.dvd_mul hr).mp hdvd with hdvd | hfac
  rotate_left
  · have hre : r = 14923 := (Nat.prime_dvd_prime_iff_eq hr (by norm_num : Nat.Prime 14923)).mp hfac
    subst hre
    intro h1
    have h2 : powModF 539204044132271846773 70 5 ((539204044132271846773 - 1) / 14923) % 539204044132271846773 = 1 % 539204044132271846773 := by
      refine (ZMod.natCast_eq_natCast_iff _ _ _).mp ?_
      rw [← cast_powModF 539204044132271846773 5 ((539204044132271846773 - 1) / 14923) 70 (by decide), h1]
      exact Nat.cast_one.symm
    revert h2
    decide
  rcases (Nat.Prime.dvd_mul hr).mp hdvd with hdvd | hfac
  rotate_left
  · have hre : r = 89 := (Nat.prime_dvd_prime_iff_eq hr (by norm_num : Nat.Prime 89)).mp hfac
    subst hre
    intro h1
    have h2 : powModF 539204044132271846773 70 5 ((539204044132271846773 - 1) / 89) % 539204044132271846773 = 1 % 539204044132271846773 := by
      refine (ZMod.natCast_eq_natCast_iff _ _ _).mp ?_
      rw [← cast_powModF 539204044132271846773 5 ((539204044132271846773 - 1) / 89) 70 (by decide), h1]
      exact Nat.cast_one.symm
    revert h2
    decide
  rcases (Nat.Prime.dvd_mul hr).mp hdvd with hdvd | hfac
  rotate_left
  · have hre : r = 3 := (Nat.prime_dvd_prime_iff_eq hr (by norm_num : Nat.Prime 3)).mp (hr.dvd_of_dvd_pow hfac)
    subst hre
    intro h1
    have h2 : powModF 539204044132271846773 70 5 ((539204044132271846773 - 1) / 3) % 539204044132271846773 = 1 % 539204044132271846773 := by
      refine (ZMod.natCast_eq_natCast_iff _ _ _).mp ?_
      rw [← cast_powModF 539204044132271846773 5 ((539204044132271846773 - 1) / 3) 70 (by decide), h1]
      exact Nat.cast_one.symm
    revert h2
    decide
  have hre : r = 2 := (Nat.prime_dvd_prime_iff_eq hr (by norm_num : Nat.Prime 2)).mp (hr.dvd_of_dvd_pow hdvd)
  subst hre
  intro h1
  have h2 : powModF 539204044132271846773 70 5 ((539204044132271846773 - 1) / 2) % 539204044132271846773 = 1 % 539204044132271846773 := by
    refine (ZMod.natCast_eq_natCast_iff _ _ _).mp ?_
    rw [← cast_powModF 539204044132271846773 5 ((539204044132271846773 - 1) / 2) 70 (by decide), h1]
    exact Nat.cast_one.symm
  revert h2
  decide

set_option maxRecDepth 100000 in
/-- Pratt-style Lucas certificate: `115603` is prime (a factor in the
recursive certification of the Pallas modulus). -/
theorem prime_115603 : Nat.Prime 115603 := by
  have hfact : (115603 : Nat) - 1 = 2 * 3 * 19267 := by decide
  have ha : ((2 : Nat) : ZMod 115603) ^ (115603 - 1) = 1 := by
    rw [cast_powModF 115603 2 (115603 - 1) 18 (by decide)]
    decide
  refine lucas_primality 115603 ((2 : Nat) : ZMod 115603) ha ?_
  intro r hr hdvd
  rw [hfact] at hdvd
  rcases (Nat.Prime.dvd_mul hr).mp hdvd with hdvd | hfac
  rotate_left
  · have hre : r = 19267 := (Nat.prime_dvd_prime_iff_eq hr (by norm_num : Nat.Prime 19267)).mp hfac
    subst hre
    intro h1
    have h2 : powModF 115603 18 2 ((115603 - 1) / 19267) % 115603 = 1 % 115603 := by
      refine (ZMod.natCast_eq_natCast_iff _ _ _).mp ?_
      rw [← cast_powModF 115603 2 ((115603 - 1) / 19267) 18 (by decide), h1]
      exact Nat.cast_one.symm
    revert h2
    decide
  rcases (Nat.Prime.dvd_mul hr).mp hdvd with hdvd | hfac
  rotate_left
  · have hre : r = 3 := (Nat.prime_dvd_prime_iff_eq hr (by norm_num : Nat.Prime 3)).mp hfac
    subst hre
    intro h1
    have h2 : powModF 115603 18 2 ((115603 - 1) / 3) % 115603 = 1 % 115603 := by
      refine (ZMod.natCast_eq_natCast_iff _ _ _).mp ?_
      rw [← cast_powModF 115603 2 ((115603 - 1) / 3) 18 (by decide), h1]
      exact Nat.cast_one.symm
    revert h2
    decide
  have hre : r = 2 := (Nat.prime_dvd_prime_iff_eq hr (by norm_num : Nat.Prime 2)).mp hdvd
  subst hre
  intro h1
  have h2 : powModF 115603 18 2 ((115603 - 1) / 2) % 115603 = 1 % 115603 := by
    refine (ZMod.natCast_eq_natCast_iff _ _ _).mp ?_
    rw [← cast_powModF 115603 2 ((115603 - 1) / 2) 18 (by decide), h1]
    exact Nat.cast_one.symm
  revert h2
  decide

set_option maxRecDepth 100000 in
/-- Pratt-style Lucas certificate: `1197907` is prime (a factor in the
recursive certification of the Pallas modulus). -/
theorem prime_1197907 : Nat.Prime 1197907 := by
  have hfact : (1197907 : Nat) - 1 = 2 * 3 * 53 * 3767 := by decide
  have ha : ((3 : Nat) : ZMod 1197907) ^ (1197907 - 1) = 1 := by
    rw [cast_powModF 1197907 3 (1197907 - 1) 22 (by decide)]
    decide
  refine lucas_primality 1197907 ((3 : Nat) : ZMod 1197907) ha ?_
  intro r hr hdvd
  rw [hfact] at hdvd
  rcases (Nat.Prime.dvd_mul hr).mp hdvd with hdvd | hfac
  rotate_left
  · have hre : r = 3767 := (Nat.prime_dvd_prime_iff_eq hr (by norm_num : Nat.Prime 3767)).mp hfac
    subst hre
    intro h1
    have h2 : powModF 1197907 22 3 ((1197907 - 1) / 3767) % 1197907 = 1 % 1197907 := by
      refine (ZMod.natCast_eq_natCast_iff _ _ _).mp ?_
      rw [← cast_powModF 1197907 3 ((1197907 - 1) / 3767) 22 (by decide), h1]
      exact Nat.cast_one.symm
    revert h2
    decide
  rcases (Nat.Prime.dvd_mul hr).mp hdvd with hdvd | hfac
  rotate_left
  · have hre : r = 53 := (Nat.prime_dvd_prime_iff_eq hr (by norm_num : Nat.Prime 53)).mp hfac
    subst hre
    intro h1
    have h2 : powModF 1197907 22 3 ((1197907 - 1) / 53) % 1197907 = 1 % 1197907 := by
      refine (ZMod.natCast_eq_natCast_iff _ _ _).mp ?_
      rw [← cast_powModF 1197907 3 ((1197907 - 1) / 53) 22 (by decide), h1]
      exact Nat.cast_one.symm
    revert h2
    decide
  rcases (Nat.Prime.dvd_mul hr).mp hdvd with hdvd | hfac
  rotate_left
  · have hre : r = 3 := (Nat.prime_dvd_prime_iff_eq hr (by norm_num : Nat.Prime 3)).mp hfac
    subst hre
    intro h1
    have h2 : powModF 1197907 22 3 ((1197907 - 1) / 3) % 1197907 = 1 % 1197907 := by
      refine (ZMod.natCast_eq_natCast_iff _ _ _).mp ?_
      rw [← cast_powModF 1197907 3 ((1197907 - 1) / 3) 22 (by decide), h1]
      exact Nat.cast_one.symm
    revert h2
    decide
  have hre : r = 2 := (Nat.prime_dvd_prime_iff_eq hr (by norm_num : Nat.Prime 2)).mp hdvd
  subst hre
  intro h1
  have h2 : powModF 1197907 22 3 ((1197907 - 1) / 2) % 1197907 = 1 % 1197907 := by
    refine (ZMod.natCast_eq_natCast_iff _ _ _).mp ?_
    rw [← cast_powModF 1197907 3 ((1197907 - 1) / 2) 22 (by decide), h1]
    exact Nat.cast_one.symm
  revert h2
  decide

set_option maxRecDepth 100000 in
/-- Pratt-style Lucas certificate: `6942563` is prime (a factor in the
recursive certification of the Pallas modulus). -/
theorem prime_6942563 : Nat.Prime 6942563 := by
  have hfact : (6942563 : Nat) - 1 = 2 * 11 * 17 * 19 * 977 := by decide
  have ha : ((2 : Nat) : ZMod 6942563) ^ (6942563 - 1) = 1 := by
    rw [cast_powModF 6942563 2 (6942563 - 1) 24 (by decide)]
    decide
  refine lucas_primality 6942563 ((2 : Nat) : ZMod 6942563) ha ?_
  intro r hr hdvd
  rw [hfact] at hdvd
  rcases (Nat.Prime.dvd_mul hr).mp hdvd with hdvd | hfac
  rotate_left
  · have hre : r = 977 := (Nat.prime_dvd_prime_iff_eq hr (by norm_num : Nat.Prime 977)).mp hfac
    subst hre
    intro h1
    have h2 : powModF 6942563 24 2 ((6942563 - 1) / 977) % 6942563 = 1 % 6942563 := by
      refine (ZMod.natCast_eq_natCast_iff _ _ _).mp ?_
      rw [← cast_powModF 6942563 2 ((6942563 - 1) / 977) 24 (by decide), h1]
      exact Nat.cast_one.symm
    revert h2
    decide
  rcases (Nat.Prime.dvd_mul hr).mp hdvd with hdvd | hfac
  rotate_left
  · have hre : r = 19 := (Nat.prime_dvd_prime_iff_eq hr (by norm_num : Nat.Prime 19)).mp hfac
    subst hre
    intro h1
    have h2 : powModF 6942563 24 2 ((6942563 - 1) / 19) % 6942563 = 1 % 6942563 := by
      refine (ZMod.natCast_eq_natCast_iff _ _ _).mp ?_
      rw [← cast_powModF 6942563 2 ((6942563 - 1) / 19) 24 (by decide), h1]
      exact Nat.cast_one.symm
    revert h2
    decide
  rcases (Nat.Prime.dvd_mul hr).mp hdvd with hdvd | hfac
  rotate_left
  · have hre : r = 17 := (Nat.prime_dvd_prime_iff_eq hr (by norm_num : Nat.Prime 17)).mp hfac
    subst hre
    intro h1
    have h2 : powModF 6942563 24 2 ((6942563 - 1) / 17) % 6942563 = 1 % 6942563 := by
      refine (ZMod.natCast_eq_natCast_iff _ _ _).mp ?_
      rw [← cast_powModF 6942563 2 ((6942563 - 1) / 17) 24 (by decide), h1]
      exact Nat.cast_one.symm
    revert h2
    decide
  rcases (Nat.Prime.dvd_mul hr).mp hdvd with hdvd | hfac
  rotate_left
  · have hre : r = 11 := (Nat.prime_dvd_prime_iff_eq hr (by norm_num : Nat.Prime 11)).mp hfac
    subst hre
    intro h1
    have h2 : powModF 6942563 24 2 ((6942563 - 1) / 11) % 6942563 = 1 % 6942563 := by
      refine (ZMod.natCast_eq_natCast_iff _ _ _).mp ?_
      rw [← cast_powModF 6942563 2 ((6942563 - 1) / 11) 24 (by decide), h1]
      exact Nat.cast_one.symm
    revert h2
    decide
  have hre : r = 2 := (Nat.prime_dvd_prime_iff_eq hr (by norm_num : Nat.Prime 2)).mp hdvd
  subst hre
  intro h1
  have h2 : powModF 6942563 24 2 ((6942563 - 1) / 2) % 6942563 = 1 % 6942563 := by
    refine (ZMod.natCast_eq_natCast_iff _ _ _).mp ?_
    rw [← cast_powModF 6942563 2 ((6942563 - 1) / 2) 24 (by decide), h1]
    exact Nat.cast_one.symm
  revert h2
  decide

set_option maxRecDepth 100000 in
/-- Pratt-style Lucas certificate: `41655379` is prime (a factor in the
recursive certification of the Pallas modulus). -/
theorem prime_41655379 : Nat.Prime 41655379 := by
  have hfact : (41655379 : Nat) - 1 = 2 * 3 * 6942563 := by decide
  have ha : ((2 : Nat) : ZMod 41655379) ^ (41655379 - 1) = 1 := by
    rw [cast_powModF 41655379 2 (41655379 - 1) 27 (by decide)]
    decide
  refine lucas_primality 41655379 ((2 : Nat) : ZMod 41655379) ha ?_
  intro r hr hdvd
  rw [hfact] at hdvd
  rcases (Nat.Prime.dvd_mul hr).mp hdvd with hdvd | hfac
  rotate_left
  · have hre : r = 6942563 := (Nat.prime_dvd_prime_iff_eq hr prime_6942563).mp hfac
    subst hre
    intro h1
    have h2 : powModF 41655379 27 2 ((41655379 - 1) / 6942563) % 41655379 = 1 % 41655379 := by
      refine (ZMod.natCast_eq_natCast_iff _ _ _).mp ?_
      rw [← cast_powModF 41655379 2 ((41655379 - 1) / 6942563) 27 (by decide), h1]
      exact Nat.cast_one.symm
    revert h2
    decide
  rcases (Nat.Prime.dvd_mul hr).mp hdvd with hdvd | hfac
  rotate_left
  · have hre : r = 3 := (Nat.prime_dvd_prime_iff_eq hr (by norm_num : Nat.Prime 3)).mp hfac
    subst hre
    intro h1
    have h2 : powModF 41655379 27 2 ((41655379 - 1) / 3) % 41655379 = 1 % 41655379 := by
      refine (ZMod.natCast_eq_natCast_iff _ _ _).mp ?_
      rw [← cast_powModF 41655379 2 ((41655379 - 1) / 3) 27 (by decide), h1]
      exact Nat.cast_one.symm
    revert h2
    decide
  have hre : r = 2 := (Nat.prime_dvd_prime_iff_eq hr (by norm_num : Nat.Prime 2)).mp hdvd
  subst hre
  intro h1
  have h2 : powModF 41655379 27 2 ((41655379 - 1) / 2) % 41655379 = 1 % 41655379 := by
    refine (ZMod.natCast_eq_natCast_iff _ _ _).mp ?_
    rw [← cast_powModF 41655379 2 ((41655379 - 1) / 2) 27 (by decide), h1]
    exact Nat.cast_one.symm
  revert h2
  decide

set_option maxRecDepth 100000 in
/-- Pratt-style Lucas certificate: `22160661629` is prime (a factor in the
recursive certification of the Pallas modulus). -/
theorem prime_22160661629 : Nat.Prime 22160661629 := by
  have hfact : (22160661629 : Nat) - 1 = 2 ^ 2 * 7 * 19 * 41655379 := by decide
  have ha : ((3 : Nat) : ZMod 22160661629) ^ (22160661629 - 1) = 1 := by
    rw [cast_powModF 22160661629 3 (22160661629 - 1) 36 (by decide)]
    decide
  refine lucas_primality 22160661629 ((3 : Nat) : ZMod 22160661629) ha ?_
  intro r hr hdvd
  rw [hfact] at hdvd
  rcases (Nat.Prime.dvd_mul hr).mp hdvd with hdvd | hfac
  rotate_left
  · have hre : r = 41655379 := (Nat.prime_dvd_prime_iff_eq hr prime_41655379).mp hfac
    subst hre
    intro h1
    have h2 : powModF 22160661629 36 3 ((22160661629 - 1) / 41655379) % 22160661629 = 1 % 22160661629 := by
      refine (ZMod.natCast_eq_natCast_iff _ _ _).mp ?_
      rw [← cast_powModF 22160661629 3 ((22160661629 - 1) / 41655379) 36 (by decide), h1]
      exact Nat.cast_one.symm
    revert h2
    decide
  rcases (Nat.Prime.dvd_mul hr).mp hdvd with hdvd | hfac
  rotate_left
  · have hre : r = 19 := (Nat.prime_dvd_prime_iff_eq hr (by norm_num : Nat.Prime 19)).mp hfac
    subst hre
    intro h1
    have h2 : powModF 22160661629 36 3 ((22160661629 - 1) / 19) % 22160661629 = 1 % 22160661629 := by
      refine (ZMod.natCast_eq_natCast_iff _ _ _).mp ?_
      rw [← cast_powModF 22160661629 3 ((22160661629 - 1) / 19) 36 (by decide), h1]
      exact Nat.cast_one.symm
    revert h2
    decide
  rcases (Nat.Prime.dvd_mul hr).mp hdvd with hdvd | hfac
  rotate_left
  · have hre : r = 7 := (Nat.prime_dvd_prime_iff_eq hr (by norm_num : Nat.Prime 7)).mp hfac
    subst hre
    intro h1
    have h2 : powModF 22160661629 36 3 ((22160661629 - 1) / 7) % 22160661629 = 1 % 22160661629 := by
      refine (ZMod.natCast_eq_natCast_iff _ _ _).mp ?_
      rw [← cast_powModF 22160661629 3 ((22160661629 - 1) / 7) 36 (by decide), h1]
      exact Nat.cast_one.symm
    revert h2
    decide
  have hre : r = 2 := (Nat.prime_dvd_prime_iff_eq hr (by norm_num : Nat.Prime 2)).mp (hr.dvd_of_dvd_pow hdvd)
  subst hre
  intro h1
  have h2 : powModF 22160661629 36 3 ((22160661629 - 1) / 2) % 22160661629 = 1 % 22160661629 := by
    refine (ZMod.natCast_eq_natCast_iff _ _ _).mp ?_
    rw [← cast_powModF 22160661629 3 ((22160661629 - 1) / 2) 36 (by decide), h1]
    exact Nat.cast_one.symm
  revert h2
  decide

set_option maxRecDepth 100000 in
/-- Pratt-style Lucas certificate: `413527` is prime (a factor in the
recursive certification of the Pallas modulus). -/
theorem prime_413527 : Nat.Prime 413527 := by
  have hfact : (413527 : Nat) - 1 = 2 * 3 * 41 ^ 3 := by decide
  have ha : ((3 : Nat) : ZMod 413527) ^ (413527 - 1) = 1 := by
    rw [cast_powModF 413527 3 (413527 - 1) 20 (by decide)]
    decide
  refine lucas_primality 413527 ((3 : Nat) : ZMod 413527) ha ?_
  intro r hr hdvd
  rw [hfact] at hdvd
  rcases (Nat.Prime.dvd_mul hr).mp hdvd with hdvd | hfac
  rotate_left
  · have hre : r = 41 := (Nat.prime_dvd_prime_iff_eq hr (by norm_num : Nat.Prime 41)).mp (hr.dvd_of_dvd_pow hfac)
    subst hre
    intro h1
    have h2 : powModF 413527 20 3 ((413527 - 1) / 41) % 413527 = 1 % 413527 := by
      refine (ZMod.natCast_eq_natCast_iff _ _ _).mp ?_
      rw [← cast_powModF 413527 3 ((413527 - 1) / 41) 20 (by decide), h1]
      exact Nat.cast_one.symm
    revert h2
    decide
  rcases (Nat.Prime.dvd_mul hr).mp hdvd with hdvd | hfac
  rotate_left
  · have hre : r = 3 := (Nat.prime_dvd_prime_iff_eq hr (by norm_num : Nat.Prime 3)).mp hfac
    subst hre
    intro h1
    have h2 : powModF 413527 20 3 ((413527 - 1) / 3) % 413527 = 1 % 413527 := by
      refine (ZMod.natCast_eq_natCast_iff _ _ _).mp ?_
      rw [← cast_powModF 413527 3 ((413527 - 1) / 3) 20 (by decide), h1]
      exact Nat.cast_one.symm
    revert h2
    decide
  have hre : r = 2 := (Nat.prime_dvd_prime_iff_eq hr (by norm_num : Nat.Prime 2)).mp hdvd
  subst hre
  intro h1
  have h2 : powModF 413527 20 3 ((413527 - 1) / 2) % 413527 = 1 % 413527 := by
    refine (ZMod.natCast_eq_natCast_iff _ _ _).mp ?_
    rw [← cast_powModF 413527 3 ((413527 - 1) / 2) 20 (by decide), h1]
    exact Nat.cast_one.symm
  revert h2
  decide

set_option maxRecDepth 100000 in
/-- Pratt-style Lucas certificate: `772231` is prime (a factor in the
recursive certification of the Pallas modulus). -/
theorem prime_772231 : Nat.Prime 772231 := by
  have hfact : (772231 : Nat) - 1 = 2 * 3 * 5 * 25741 := by decide
  have ha : ((6 : Nat) : ZMod 772231) ^ (772231 - 1) = 1 := by
    rw [cast_powModF 772231 6 (772231 - 1) 21 (by decide)]
    decide
  refine lucas_primality 772231 ((6 : Nat) : ZMod 772231) ha ?_
  intro r hr hdvd
  rw [hfact] at hdvd
  rcases (Nat.Prime.dvd_mul hr).mp hdvd with hdvd | hfac
  rotate_left
  · have hre : r = 25741 := (Nat.prime_dvd_prime_iff_eq hr (by norm_num : Nat.Prime 25741)).mp hfac
    subst hre
    intro h1
    have h2 : powModF 772231 21 6 ((772231 - 1) / 25741) % 772231 = 1 % 772231 := by
      refine (ZMod.natCast_eq_natCast_iff _ _ _).mp ?_
      rw [← cast_powModF 772231 6 ((772231 - 1) / 25741) 21 (by decide), h1]
      exact Nat.cast_one.symm
    revert h2
    decide
  rcases (Nat.Prime.dvd_mul hr).mp hdvd with hdvd | hfac
  rotate_left
  · have hre : r = 5 := (Nat.prime_dvd_prime_iff_eq hr (by norm_num : Nat.Prime 5)).mp hfac
    subst hre
    intro h1
    have h2 : powModF 772231 21 6 ((772231 - 1) / 5) % 772231 = 1 % 772231 := by
      refine (ZMod.natCast_eq_natCast_iff _ _ _).mp ?_
      rw [← cast_powModF 772231 6 ((772231 - 1) / 5) 21 (by decide), h1]
      exact Nat.cast_one.symm
    revert h2
    decide
  rcases (Nat.Prime.dvd_mul hr).mp hdvd with hdvd | hfac
  rotate_left
  · have hre : r = 3 := (Nat.prime_dvd_prime_iff_eq hr (by norm_num : Nat.Prime 3)).mp hfac
    subst hre
    intro h1
    have h2 : powModF 772231 21 6 ((772231 - 1) / 3) % 772231 = 1 % 772231 := by
      refine (ZMod.natCast_eq_natCast_iff _ _ _).mp ?_
      rw [← cast_powModF 772231 6 ((772231 - 1) / 3) 21 (by decide), h1]
      exact Nat.cast_one.symm
    revert h2
    decide
  have hre : r = 2 := (Nat.prime_dvd_prime_iff_eq hr (by norm_num : Nat.Prime 2)).mp hdvd
  subst hre
  intro h1
  have h2 : powModF 772231 21 6 ((772231 - 1) / 2) % 772231 = 1 % 772231 := by
    refine (ZMod.natCast_eq_natCast_iff _ _ _).mp ?_
    rw [← cast_powModF 772231 6 ((772231 - 1) / 2) 21 (by decide), h1]
    exact Nat.cast_one.symm
  revert h2
  decide

set_option maxRecDepth 100000 in
/-- Pratt-style Lucas certificate: `325086459374267` is prime (a factor in the
recursive certification of the Pallas modulus). -/
theorem prime_325086459374267 : Nat.Prime 325086459374267 := by
  have hfact : (325086459374267 : Nat) - 1 = 2 * 509 * 413527 * 772231 := by decide
  have ha : ((2 : Nat) : ZMod 325086459374267) ^ (325086459374267 - 1) = 1 := by
    rw [cast_powModF 325086459374267 2 (325086459374267 - 1) 50 (by decide)]
    decide
  refine lucas_primality 325086459374267 ((2 : Nat) : ZMod 325086459374267) ha ?_
  intro r hr hdvd
  rw [hfact] at hdvd
  rcases (Nat.Prime.dvd_mul hr).mp hdvd with hdvd | hfac
  rotate_left
  · have hre : r = 772231 := (Nat.prime_dvd_prime_iff_eq hr prime_772231).mp hfac
    subst hre
    intro h1
    have h2 : powModF 325086459374267 50 2 ((325086459374267 - 1) / 772231) % 325086459374267 = 1 % 325086459374267 := by
      refine (ZMod.natCast_eq_natCast_iff _ _ _).mp ?_
      rw [← cast_powModF 325086459374267 2 ((325086459374267 - 1) / 772231) 50 (by decide), h1]
      exact Nat.cast_one.symm
    revert h2
    decide
  rcases (Nat.Prime.dvd_mul hr).mp hdvd with hdvd | hfac
  rotate_left
  · have hre : r = 413527 := (Nat.prime_dvd_prime_iff_eq hr prime_413527).mp hfac
    subst hre
    intro h1
    have h2 : powModF 325086459374267 50 2 ((325086459374267 - 1) / 413527) % 325086459374267 = 1 % 325086459374267 := by
      refine (ZMod.natCast_eq_natCast_iff _ _ _).mp ?_
      rw [← cast_powModF 325086459374267 2 ((325086459374267 - 1) / 413527) 50 (by decide), h1]
      exact Nat.cast_one.symm
    revert h2
    decide
  rcases (Nat.Prime.dvd_mul hr).mp hdvd with hdvd | hfac
  rotate_left
  · have hre : r = 509 := (Nat.prime_dvd_prime_iff_eq hr (by norm_num : Nat.Prime 509)).mp hfac
    subst hre
    intro h1
    have h2 : powModF 325086459374267 50 2 ((325086459374267 - 1) / 509) % 325086459374267 = 1 % 325086459374267 := by
      refine (ZMod.natCast_eq_natCast_iff _ _ _).mp ?_
      rw [← cast_powModF 325086459374267 2 ((325086459374267 - 1) / 509) 50 (by decide), h1]
      exact Nat.cast_one.symm
    revert h2
    decide
  have hre : r = 2 := (Nat.prime_dvd_prime_iff_eq hr (by norm_num : Nat.Prime 2)).mp hdvd
  subst hre
  intro h1
  have h2 : powModF 325086459374267 50 2 ((325086459374267 - 1) / 2) % 325086459374267 = 1 % 325086459374267 := by
    refine (ZMod.natCast_eq_natCast_iff _ _ _).mp ?_
    rw [← cast_powModF 325086459374267 2 ((325086459374267 - 1) / 2) 50 (by decide), h1]
    exact Nat.cast_one.symm
  revert h2
  decide

set_option maxRecDepth 100000 in
/-- Pratt-style Lucas certificate: `8999194758858563409123804352480028797519453` is prime (a factor in the
recursive certification of the Pallas modulus). -/
theorem prime_8999194758858563409123804352480028797519453 : Nat.Prime 8999194758858563409123804352480028797519453 := by
  have hfact : (8999194758858563409123804352480028797519453 : Nat) - 1 = 2 ^ 2 * 3 ^ 4 * 11 * 2531 * 115603 * 1197907 * 22160661629 * 325086459374267 := by decide
  have ha : ((2 : Nat) : ZMod 8999194758858563409123804352480028797519453) ^ (8999194758858563409123804352480028797519453 - 1) = 1 := by
    rw [cast_powModF 8999194758858563409123804352480028797519453 2 (8999194758858563409123804352480028797519453 - 1) 144 (by decide)]
    decide
  refine lucas_primality 8999194758858563409123804352480028797519453 ((2 : Nat) : ZMod 8999194758858563409123804352480028797519453) ha ?_
  intro r hr hdvd
  rw [hfact] at hdvd
  rcases (Nat.Prime.dvd_mul hr).mp hdvd with hdvd | hfac
  rotate_left
  · have hre : r = 325086459374267 := (Nat.prime_dvd_prime_iff_eq hr prime_325086459374267).mp hfac
    subst hre
    intro h1
    have h2 : powModF 8999194758858563409123804352480028797519453 144 2 ((8999194758858563409123804352480028797519453 - 1) / 325086459374267) % 8999194758858563409123804352480028797519453 = 1 % 8999194758858563409123804352480028797519453 := by
      refine (ZMod.natCast_eq_natCast_iff _ _ _).mp ?_
      rw [← cast_powModF 8999194758858563409123804352480028797519453 2 ((8999194758858563409123804352480028797519453 - 1) / 325086459374267) 144 (by decide), h1]
      exact Nat.cast_one.symm
    revert h2
    decide
  rcases (Nat.Prime.dvd_mul hr).mp hdvd with hdvd | hfac
  rotate_left
  · have hre : r = 22160661629 := (Nat.prime_dvd_prime_iff_eq hr prime_22160661629).mp hfac
    subst hre
    intro h1
    have h2 : powModF 8999194758858563409123804352480028797519453 144 2 ((8999194758858563409123804352480028797519453 - 1) / 22160661629) % 8999194758858563409123804352480028797519453 = 1 % 8999194758858563409123804352480028797519453 := by
      refine (ZMod.natCast_eq_natCast_iff _ _ _).mp ?_
      rw [← cast_powModF 8999194758858563409123804352480028797519453 2 ((8999194758858563409123804352480028797519453 - 1) / 22160661629) 144 (by decide), h1]
      exact Nat.cast_one.symm
    revert h2
    decide
  rcases (Nat.Prime.dvd_mul hr).mp hdvd with hdvd | hfac
  rotate_left
  · have hre : r = 1197907 := (Nat.prime_dvd_prime_iff_eq hr prime_1197907).mp hfac
    subst hre
    intro h1
    have h2 : powModF 8999194758858563409123804352480028797519453 144 2 ((8999194758858563409123804352480028797519453 - 1) / 1197907) % 8999194758858563409123804352480028797519453 = 1 % 8999194758858563409123804352480028797519453 := by
      refine (ZMod.natCast_eq_natCast_iff _ _ _).mp ?_
      rw [← cast_powModF 8999194758858563409123804352480028797519453 2 ((8999194758858563409123804352480028797519453 - 1) / 1197907) 144 (by decide), h1]
      exact Nat.cast_one.symm
    revert h2
    decide
  rcases (Nat.Prime.dvd_mul hr).mp hdvd with hdvd | hfac
  rotate_left
  · have hre : r = 115603 := (Nat.prime_dvd_prime_iff_eq hr prime_115603).mp hfac
    subst hre
    intro h1
    have h2 : powModF 8999194758858563409123804352480028797519453 144 2 ((8999194758858563409123804352480028797519453 - 1) / 115603) % 8999194758858563409123804352480028797519453 = 1 % 8999194758858563409123804352480028797519453 := by
      refine (ZMod.natCast_eq_natCast_iff _ _ _).mp ?_
      rw [← cast_powModF 8999194758858563409123804352480028797519453 2 ((8999194758858563409123804352480028797519453 - 1) / 115603) 144 (by decide), h1]
      exact Nat.cast_one.symm
    revert h2
    decide
  rcases (Nat.Prime.dvd_mul hr).mp hdvd with hdvd | hfac
  rotate_left
  · have hre : r = 2531 := (Nat.prime_dvd_prime_iff_eq hr (by norm_num : Nat.Prime 2531)).mp hfac
    subst hre
    intro h1
    have h2 : powModF 8999194758858563409123804352480028797519453 144 2 ((8999194758858563409123804352480028797519453 - 1) / 2531) % 8999194758858563409123804352480028797519453 = 1 % 8999194758858563409123804352480028797519453 := by
      refine (ZMod.natCast_eq_natCast_iff _ _ _).mp ?_
      rw [← cast_powModF 8999194758858563409123804352480028797519453 2 ((8999194758858563409123804352480028797519453 - 1) / 2531) 144 (by decide), h1]
      exact Nat.cast_one.symm
    revert h2
    decide
  rcases (Nat.Prime.dvd_mul hr).mp hdvd with hdvd | hfac
  rotate_left
  · have hre : r = 11 := (Nat.prime_dvd_prime_iff_eq hr (by norm_num : Nat.Prime 11)).mp hfac
    subst hre
    intro h1
    have h2 : powModF 8999194758858563409123804352480028797519453 144 2 ((8999194758858563409123804352480028797519453 - 1) / 11) % 8999194758858563409123804352480028797519453 = 1 % 8999194758858563409123804352480028797519453 := by
      refine (ZMod.natCast_eq_natCast_iff _ _ _).mp ?_
      rw [← cast_powModF 8999194758858563409123804352480028797519453 2 ((8999194758858563409123804352480028797519453 - 1) / 11) 144 (by decide), h1]
      exact Nat.cast_one.symm
    revert h2
    decide
  rcases (Nat.Prime.dvd_mul hr).mp hdvd with hdvd | hfac
  rotate_left
  · have hre : r = 3 := (Nat.prime_dvd_prime_iff_eq hr (by norm_num : Nat.Prime 3)).mp (hr.dvd_of_dvd_pow hfac)
    subst hre
    intro h1
    have h2 : powModF 8999194758858563409123804352480028797519453 144 2 ((8999194758858563409123804352480028797519453 - 1) / 3) % 8999194758858563409123804352480028797519453 = 1 % 8999194758858563409123804352480028797519453 := by
      refine (ZMod.natCast_eq_natCast_iff _ _ _).mp ?_
      rw [← cast_powModF 8999194758858563409123804352480028797519453 2 ((8999194758858563409123804352480028797519453 - 1) / 3) 144 (by decide), h1]
      exact Nat.cast_one.symm
    revert h2
    decide
  have hre : r = 2 := (Nat.prime_dvd_prime_iff_eq hr (by norm_num : Nat.Prime 2)).mp (hr.dvd_of_dvd_pow hdvd)
  subst hre
  intro h1
  have h2 : powModF 8999194758858563409123804352480028797519453 144 2 ((8999194758858563409123804352480028797519453 - 1) / 2) % 8999194758858563409123804352480028797519453 = 1 % 8999194758858563409123804352480028797519453 := by
    refine (ZMod.natCast_eq_natCast_iff _ _ _).mp ?_
    rw [← cast_powModF 8999194758858563409123804352480028797519453 2 ((8999194758858563409123804352480028797519453 - 1) / 2) 144 (by decide), h1]
    exact Nat.cast_one.symm
  revert h2
  decide

set_option maxRecDepth 100000 in
/-- Pratt-style Lucas certificate: `28948022309329048855892746252171976963363056481941560715954676764349967630337` is prime (a factor in the
recursive certification of the Pallas modulus). -/
theorem prime_28948022309329048855892746252171976963363056481941560715954676764349967630337 : Nat.Prime 28948022309329048855892746252171976963363056481941560715954676764349967630337 := by
  have hfact : (28948022309329048855892746252171976963363056481941560715954676764349967630337 : Nat) - 1 = 2 ^ 32 * 3 * 463 * 539204044132271846773 * 8999194758858563409123804352480028797519453 := by decide
  have ha : ((5 : Nat) : ZMod 28948022309329048855892746252171976963363056481941560715954676764349967630337) ^ (28948022309329048855892746252171976963363056481941560715954676764349967630337 - 1) = 1 := by
    rw [cast_powModF 28948022309329048855892746252171976963363056481941560715954676764349967630337 5 (28948022309329048855892746252171976963363056481941560715954676764349967630337 - 1) 256 (by decide)]
    decide
  refine lucas_primality 28948022309329048855892746252171976963363056481941560715954676764349967630337 ((5 : Nat) : ZMod 28948022309329048855892746252171976963363056481941560715954676764349967630337) ha ?_
  intro r hr hdvd
  rw [hfact] at hdvd
  rcases (Nat.Prime.dvd_mul hr).mp hdvd with hdvd | hfac
  rotate_left
  · have hre : r = 8999194758858563409123804352480028797519453 := (Nat.prime_dvd_prime_iff_eq hr prime_8999194758858563409123804352480028797519453).mp hfac
    subst hre
    intro h1
    have h2 : powModF 28948022309329048855892746252171976963363056481941560715954676764349967630337 256 5 ((28948022309329048855892746252171976963363056481941560715954676764349967630337 - 1) / 8999194758858563409123804352480028797519453) % 28948022309329048855892746252171976963363056481941560715954676764349967630337 = 1 % 28948022309329048855892746252171976963363056481941560715954676764349967630337 := by
      refine (ZMod.natCast_eq_natCast_iff _ _ _).mp ?_
      rw [← cast_powModF 28948022309329048855892746252171976963363056481941560715954676764349967630337 5 ((28948022309329048855892746252171976963363056481941560715954676764349967630337 - 1) / 8999194758858563409123804352480028797519453) 256 (by decide), h1]
      exact Nat.cast_one.symm
    revert h2
    decide
  rcases (Nat.Prime.dvd_mul hr).mp hdvd with hdvd | hfac
  rotate_left
  · have hre : r = 539204044132271846773 := (Nat.prime_dvd_prime_iff_eq hr prime_539204044132271846773).mp hfac
    subst hre
    intro h1
    have h2 : powModF 28948022309329048855892746252171976963363056481941560715954676764349967630337 256 5 ((28948022309329048855892746252171976963363056481941560715954676764349967630337 - 1) / 539204044132271846773) % 28948022309329048855892746252171976963363056481941560715954676764349967630337 = 1 % 28948022309329048855892746252171976963363056481941560715954676764349967630337 := by
      refine (ZMod.natCast_eq_natCast_iff _ _ _).mp ?_
      rw [← cast_powModF 28948022309329048855892746252171976963363056481941560715954676764349967630337 5 ((28948022309329048855892746252171976963363056481941560715954676764349967630337 - 1) / 539204044132271846773) 256 (by decide), h1]
      exact Nat.cast_one.symm
    revert h2
    decide
  rcases (Nat.Prime.dvd_mul hr).mp hdvd with hdvd | hfac
  rotate_left
  · have hre : r = 463 := (Nat.prime_dvd_prime_iff_eq hr (by norm_num : Nat.Prime 463)).mp hfac
    subst hre
    intro h1
    have h2 : powModF 28948022309329048855892746252171976963363056481941560715954676764349967630337 256 5 ((28948022309329048855892746252171976963363056481941560715954676764349967630337 - 1) / 463) % 28948022309329048855892746252171976963363056481941560715954676764349967630337 = 1 % 28948022309329048855892746252171976963363056481941560715954676764349967630337 := by
      refine (ZMod.natCast_eq_natCast_iff _ _ _).mp ?_
      rw [← cast_powModF 28948022309329048855892746252171976963363056481941560715954676764349967630337 5 ((28948022309329048855892746252171976963363056481941560715954676764349967630337 - 1) / 463) 256 (by decide), h1]
      exact Nat.cast_one.symm
    revert h2
    decide
  rcases (Nat.Prime.dvd_mul hr).mp hdvd with hdvd | hfac
  rotate_left
  · have hre : r = 3 := (Nat.prime_dvd_prime_iff_eq hr (by norm_num : Nat.Prime 3)).mp hfac
    subst hre
    intro h1
    have h2 : powModF 28948022309329048855892746252171976963363056481941560715954676764349967630337 256 5 ((28948022309329048855892746252171976963363056481941560715954676764349967630337 - 1) / 3) % 28948022309329048855892746252171976963363056481941560715954676764349967630337 = 1 % 28948022309329048855892746252171976963363056481941560715954676764349967630337 := by
      refine (ZMod.natCast_eq_natCast_iff _ _ _).mp ?_
      rw [← cast_powModF 28948022309329048855892746252171976963363056481941560715954676764349967630337 5 ((28948022309329048855892746252171976963363056481941560715954676764349967630337 - 1) / 3) 256 (by decide), h1]
      exact Nat.cast_one.symm
    revert h2
    decide
  have hre : r = 2 := (Nat.prime_dvd_prime_iff_eq hr (by norm_num : Nat.Prime 2)).mp (hr.dvd_of_dvd_pow hdvd)
  subst hre
  intro h1
  have h2 : powModF 28948022309329048855892746252171976963363056481941560715954676764349967630337 256 5 ((28948022309329048855892746252171976963363056481941560715954676764349967630337 - 1) / 2) % 28948022309329048855892746252171976963363056481941560715954676764349967630337 = 1 % 28948022309329048855892746252171976963363056481941560715954676764349967630337 := by
    refine (ZMod.natCast_eq_natCast_iff _ _ _).mp ?_
    rw [← cast_powModF 28948022309329048855892746252171976963363056481941560715954676764349967630337 5 ((28948022309329048855892746252171976963363056481941560715954676764349967630337 - 1) / 2) 256 (by decide), h1]
    exact Nat.cast_one.symm
  revert h2
  decide

/-- The Pallas base field modulus is prime, so `F` is a field. -/
theorem P_prime : Nat.Prime P :=
  prime_28948022309329048855892746252171976963363056481941560715954676764349967630337

/-- Claim C4 (amended): `commitment(v, s) = v*s + v` is deterministic, and for
every value `v` that is nonzero as a field element, distinct salts give
distinct commitments.  (For `v = 0` the commitment is `0` for every salt —
see the counterexample — so nonzeroness of the value is required.) -/
theorem C4_commitment_det_salt_injective :
    (∀ v s : F, compute_commitment v s = compute_commitment v s) ∧
    (∀ v s1 s2 : F, v ≠ 0 → s1 ≠ s2 →
      compute_commitment v s1 ≠ compute_commitment v s2) := by
  haveI : Fact (Nat.Prime P) := ⟨P_prime⟩
  refine ⟨fun v s => rfl, fun v s1 s2 hv hs h => hs ?_⟩
  have h' : v * s1 + v = v * s2 + v := h
  exact mul_left_cancel₀ hv (add_right_cancel h')

/-- Witness for the amended C4 at `v = 3`, `s1 = 5`, `s2 = 7`. -/
theorem C4_commitment_det_salt_injective_witness :
    (((3 : Nat) : F) ≠ 0 ∧ ((5 : Nat) : F) ≠ ((7 : Nat) : F)) ∧
    compute_commitment ((3 : Nat) : F) ((5 : Nat) : F) ≠
      compute_commitment ((3 : Nat) : F) ((7 : Nat) : F) :=
  ⟨⟨by decide, by decide⟩,
   C4_commitment_det_salt_injective.2 _ _ _ (by decide) (by decide)⟩
